import Mathlib

/-!
# Verification of the BitPay python client library (`bp_lib.py`)

Shallow embedding of the library's data model and operations, and proofs of
the specification's claims about them.

Python values flowing through the library are JSON-like: strings, integers,
booleans, null, arrays and objects (dicts).  We embed them as the inductive
type `Json`.  Python dicts are embedded as association lists whose update
operation (`dictSet`) replaces an existing binding in place, mirroring
Python's `d[k] = v`; lookup (`dictGet`) returns the first binding.
-/

set_option maxHeartbeats 1000000
set_option maxRecDepth 10000

namespace BpLib

/-- JSON-like Python value.  JSON float literals do not occur in any payload
this library builds or that the claims quantify over, so numbers are embedded
as integers. -/
inductive Json : Type where
  | str (s : String)
  | num (n : Int)
  | bool (b : Bool)
  | null
  | arr (xs : List Json)
  | obj (fields : List (String × Json))
  deriving Repr

/-- Python exceptions that the library can raise (it installs no handlers for
these; they propagate to the caller). -/
inductive PyErr : Type where
  | keyError (k : String)
  | valueError (msg : String)
  | typeError (msg : String)
  | unicodeEncodeError (msg : String)
  deriving Repr, DecidableEq

mutual

def Json.beq : Json → Json → Bool
  | .str a, .str b => a == b
  | .num a, .num b => a == b
  | .bool a, .bool b => a == b
  | .null, .null => true
  | .arr a, .arr b => Json.beqList a b
  | .obj a, .obj b => Json.beqFields a b
  | _, _ => false

def Json.beqList : List Json → List Json → Bool
  | [], [] => true
  | a :: as, b :: bs => Json.beq a b && Json.beqList as bs
  | _, _ => false

def Json.beqFields : List (String × Json) → List (String × Json) → Bool
  | [], [] => true
  | (k, v) :: as, (l, w) :: bs => k == l && Json.beq v w && Json.beqFields as bs
  | _, _ => false

end

mutual

theorem Json.beq_iff : ∀ a b : Json, Json.beq a b = true ↔ a = b
  | .str a, b => by cases b <;> simp [Json.beq]
  | .num a, b => by cases b <;> simp [Json.beq]
  | .bool a, b => by cases b <;> simp [Json.beq]
  | .null, b => by cases b <;> simp [Json.beq]
  | .arr a, b => by
      cases b <;> simp [Json.beq]
      exact Json.beqList_iff a _
  | .obj a, b => by
      cases b <;> simp [Json.beq]
      exact Json.beqFields_iff a _

theorem Json.beqList_iff : ∀ a b : List Json, Json.beqList a b = true ↔ a = b
  | [], b => by cases b <;> simp [Json.beqList]
  | a :: as, b => by
      cases b with
      | nil => simp [Json.beqList]
      | cons b bs =>
          simp [Json.beqList, Bool.and_eq_true, Json.beq_iff a b, Json.beqList_iff as bs]

theorem Json.beqFields_iff : ∀ a b : List (String × Json), Json.beqFields a b = true ↔ a = b
  | [], b => by cases b <;> simp [Json.beqFields]
  | (k, v) :: as, b => by
      cases b with
      | nil => simp [Json.beqFields]
      | cons p bs =>
          obtain ⟨l, w⟩ := p
          simp [Json.beqFields, Bool.and_eq_true, Json.beq_iff v w, Json.beqFields_iff as bs,
            and_assoc]

end

instance : DecidableEq Json := fun a b =>
  decidable_of_iff (Json.beq a b = true) (Json.beq_iff a b)

/-- Lookup in a Python dict (association list); first binding wins.  Dicts
built by this development never hold duplicate keys, mirroring Python dicts. -/
def dictGet (d : List (String × Json)) (k : String) : Option Json :=
  match d with
  | [] => none
  | (a, v) :: rest => if a = k then some v else dictGet rest k

/-- Python `d[k] = v`: replace the existing binding in place, else append. -/
def dictSet (d : List (String × Json)) (k : String) (v : Json) : List (String × Json) :=
  match d with
  | [] => [(k, v)]
  | (a, w) :: rest => if a = k then (a, v) :: rest else (a, w) :: dictSet rest k v

/-- Python `dict(pairs)`: insert the pairs left to right (later duplicates
overwrite earlier ones). -/
def dictFromList (l : List (String × Json)) : List (String × Json) :=
  l.foldl (fun d p => dictSet d p.1 p.2) []

theorem dictGet_dictSet (d : List (String × Json)) (k : String) (v : Json) (k' : String) :
    dictGet (dictSet d k v) k' = if k = k' then some v else dictGet d k' := by
  induction d with
  | nil => simp [dictSet, dictGet]
  | cons p rest ih =>
      obtain ⟨a, w⟩ := p
      by_cases hak : a = k
      · subst hak
        by_cases hk : a = k' <;> simp [dictSet, dictGet, hk]
      · by_cases hk : a = k'
        · subst hk
          have hk2 : ¬(k = a) := fun h => hak h.symm
          simp [dictSet, dictGet, hak, ih, hk2]
        · simp [dictSet, dictGet, hak, hk, ih]

theorem dictSet_dictSet_same (d : List (String × Json)) (k : String) (v w : Json) :
    dictSet (dictSet d k v) k w = dictSet d k w := by
  induction d with
  | nil => simp [dictSet]
  | cons p rest ih =>
      obtain ⟨a, u⟩ := p
      by_cases hak : a = k <;> simp [dictSet, hak, ih]

/-! ## `json.dumps` (Python 2, default arguments)

Default separators are `", "` and `": "`, and `ensure_ascii=True` escapes
every character outside the printable ASCII range `0x20..0x7e` as `\uXXXX`
(with a surrogate pair for code points above `0xFFFF`). -/

/-- The `\x7b` character (left curly brace). -/
def lbraceChar : Char := Char.ofNat 123

/-- The `\x7d` character (right curly brace). -/
def rbraceChar : Char := Char.ofNat 125

/-- Lower-case hex digit, as produced by Python's `"\\u%04x"` format. -/
def toHexDigit (n : Nat) : Char :=
  Char.ofNat (if n < 10 then 48 + n else 87 + n)

/-- Four-digit hex rendering of `n < 0x10000`. -/
def hex4 (n : Nat) : List Char :=
  [toHexDigit (n / 4096 % 16), toHexDigit (n / 256 % 16), toHexDigit (n / 16 % 16),
    toHexDigit (n % 16)]

/-- `\uXXXX` escape of a character outside printable ASCII; code points above
`0xFFFF` become a UTF-16 surrogate pair, as CPython's encoder emits. -/
def uEscapeChar (c : Char) : List Char :=
  let n := c.toNat
  if n < 65536 then '\\' :: 'u' :: hex4 n
  else
    let m := n - 65536
    '\\' :: 'u' :: hex4 (55296 + m / 1024) ++ '\\' :: 'u' :: hex4 (56320 + m % 1024)

/-- Escape of one character inside a JSON string literal (CPython's
`ESCAPE_DCT` table with `ensure_ascii`). -/
def escapeChar (c : Char) : List Char :=
  if c = '"' then ['\\', '"']
  else if c = '\\' then ['\\', '\\']
  else if c = '\x08' then ['\\', 'b']
  else if c = '\x0c' then ['\\', 'f']
  else if c = '\n' then ['\\', 'n']
  else if c = '\r' then ['\\', 'r']
  else if c = '\t' then ['\\', 't']
  else if c.toNat < 32 ∨ 127 ≤ c.toNat then uEscapeChar c
  else [c]

/-- Escape every character of a string body. -/
def escapeList (cs : List Char) : List Char :=
  match cs with
  | [] => []
  | c :: rest => escapeChar c ++ escapeList rest

/-- JSON string literal for `s`, quotes included. -/
def quoteStr (s : String) : String :=
  "\"" ++ String.mk (escapeList s.data) ++ "\""

mutual

/-- Python 2 `json.dumps` with default arguments. -/
def Json.dumps : Json → String
  | .str s => quoteStr s
  | .num n => toString n
  | .bool true => "true"
  | .bool false => "false"
  | .null => "null"
  | .arr xs => "[" ++ Json.dumpsList xs ++ "]"
  | .obj fs => "\x7b" ++ Json.dumpsFields fs ++ "\x7d"

def Json.dumpsList : List Json → String
  | [] => ""
  | [x] => Json.dumps x
  | x :: y :: xs => Json.dumps x ++ ", " ++ Json.dumpsList (y :: xs)

def Json.dumpsFields : List (String × Json) → String
  | [] => ""
  | [(k, v)] => quoteStr k ++ ": " ++ Json.dumps v
  | (k, v) :: p :: fs => quoteStr k ++ ": " ++ Json.dumps v ++ ", " ++ Json.dumpsFields (p :: fs)

end

/-! ## `json.loads` (Python 2, default arguments)

Recursive-descent scanner mirroring CPython's `json.scanner`: optional
whitespace (space, tab, newline, carriage return) between tokens, strict
strings (unescaped control characters rejected), `\uXXXX` escapes with
surrogate-pair recombination, objects built as dicts (a duplicated key keeps
its last value).  Float literals (fraction or exponent part) and the
`NaN`/`Infinity` extensions never occur in this library's payloads and are
outside the model: the scanner rejects them.  A `\uXXXX` escape denoting a
lone surrogate is likewise rejected (CPython 2 errors on an unpaired high
surrogate; a lone low surrogate would produce a non-scalar value that no
payload of this library contains). -/

/-- Value of a hex digit (`0-9`, `a-f`, `A-F`). -/
def hexDigitVal (c : Char) : Option Nat :=
  let n := c.toNat
  if 48 ≤ n ∧ n ≤ 57 then some (n - 48)
  else if 97 ≤ n ∧ n ≤ 102 then some (n - 87)
  else if 65 ≤ n ∧ n ≤ 70 then some (n - 55)
  else none

/-- Value of a four-digit hex escape. -/
def hex4val (a b c d : Char) : Option Nat := do
  let x ← hexDigitVal a
  let y ← hexDigitVal b
  let z ← hexDigitVal c
  let w ← hexDigitVal d
  pure (x * 4096 + y * 256 + z * 16 + w)

/-- The single-character JSON string escapes (CPython's `BACKSLASH` table). -/
def simpleEscape (c : Char) : Option Char :=
  if c = '"' then some '"'
  else if c = '\\' then some '\\'
  else if c = '/' then some '/'
  else if c = 'b' then some '\x08'
  else if c = 'f' then some '\x0c'
  else if c = 'n' then some '\n'
  else if c = 'r' then some '\r'
  else if c = 't' then some '\t'
  else none

/-- State of the string scanner: scanning ordinary characters, just after a
backslash, inside the digits of a `\uXXXX` escape (`hex k acc hi` with `k`
digits still expected, `acc` the digits read so far, and `hi` the pending
high surrogate when this escape must supply the low half), or between a high
surrogate and its mandatory `\u` continuation. -/
inductive ScanSt : Type where
  | norm
  | esc
  | hex (k : Nat) (acc : Nat) (hi : Option Nat)
  | pairSlash (hi : Nat)
  | pairU (hi : Nat)

/-- Scan a JSON string body character by character (CPython's `py_scanstring`
grammar, strict mode): ordinary characters accumulate (unescaped control
characters are rejected), a backslash starts an escape (the single-character
table or `\uXXXX`), a high surrogate escape must be followed immediately by a
low surrogate escape and the pair recombines into one code point, unpaired
surrogates are rejected, and an unescaped quote ends the scan, returning the
accumulated characters and the input past the quote. -/
def strScan : List Char → ScanSt → List Char → Option (List Char × List Char)
  | [], _, _ => none
  | c :: cs, st, acc =>
    match st with
    | .norm =>
      if c = '"' then some (acc.reverse, cs)
      else if c = '\\' then strScan cs .esc acc
      else if c.toNat < 32 then none
      else strScan cs .norm (c :: acc)
    | .esc =>
      if c = 'u' then strScan cs (.hex 4 0 none) acc
      else
        match simpleEscape c with
        | none => none
        | some d => strScan cs .norm (d :: acc)
    | .hex k a hi =>
      (match hexDigitVal c with
      | none => none
      | some d =>
        let a2 := a * 16 + d
        if k ≤ 1 then
          match hi with
          | none =>
            if 55296 ≤ a2 ∧ a2 ≤ 56319 then strScan cs (.pairSlash a2) acc
            else if 56320 ≤ a2 ∧ a2 ≤ 57343 then none
            else strScan cs .norm (Char.ofNat a2 :: acc)
          | some h =>
            if 56320 ≤ a2 ∧ a2 ≤ 57343 then
              strScan cs .norm (Char.ofNat (65536 + (h - 55296) * 1024 + (a2 - 56320)) :: acc)
            else none
        else strScan cs (.hex (k - 1) a2 hi) acc)
    | .pairSlash h => if c = '\\' then strScan cs (.pairU h) acc else none
    | .pairU h => if c = 'u' then strScan cs (.hex 4 0 (some h)) acc else none

/-- Scan a JSON string body (the opening quote already consumed); returns the
decoded characters and the input after the closing quote. -/
def parseStrBody (cs : List Char) : Option (List Char × List Char) :=
  strScan cs .norm []

/-- JSON inter-token whitespace. -/
def isJsonWs (c : Char) : Bool :=
  c = ' ' || c = '\t' || c = '\n' || c = '\r'

/-- Skip inter-token whitespace. -/
def skipWs (cs : List Char) : List Char :=
  cs.dropWhile isJsonWs

/-- ASCII decimal digit. -/
def isDigitChar (c : Char) : Bool :=
  48 ≤ c.toNat && c.toNat ≤ 57

/-- Numeric value of a digit string. -/
def digitsToNat (ds : List Char) : Nat :=
  ds.foldl (fun acc d => acc * 10 + (d.toNat - 48)) 0

/-- Scan an integer literal per CPython's `NUMBER_RE` (`-? (0 | [1-9][0-9]*)`);
a following fraction or exponent part would make a float, which is outside
the model and rejected. -/
def parseNumber (cs : List Char) : Option (Json × List Char) :=
  let core : List Char → Option (Nat × List Char) := fun l =>
    match l with
    | [] => none
    | d :: rest =>
      if d = '0' then some (0, rest)
      else if isDigitChar d then
        let ds := rest.takeWhile isDigitChar
        some (digitsToNat (d :: ds), rest.dropWhile isDigitChar)
      else none
  let finish : Int → List Char → Option (Json × List Char) := fun v rest =>
    match rest with
    | [] => some (Json.num v, [])
    | c :: _ =>
      if c = '.' || c = 'e' || c = 'E' then none
      else some (Json.num v, rest)
  match cs with
  | '-' :: cs1 =>
    (match core cs1 with
    | none => none
    | some (n, rest) => finish (-(n : Int)) rest)
  | _ =>
    match core cs with
    | none => none
    | some (n, rest) => finish (n : Int) rest

mutual

/-- Scan one JSON value.  `fuel` bounds the recursion depth; `pyJsonLoads`
supplies more fuel than any input can consume. -/
def parseValue : Nat → List Char → Option (Json × List Char)
  | 0, _ => none
  | fuel + 1, cs =>
    match skipWs cs with
    | [] => none
    | c :: rest =>
      if c = '"' then
        match parseStrBody rest with
        | none => none
        | some (out, r) => some (Json.str (String.mk out), r)
      else if c = lbraceChar then
        match skipWs rest with
        | [] => none
        | c2 :: rest2 =>
          if c2 = rbraceChar then some (Json.obj [], rest2)
          else
            match parseMembers fuel (c2 :: rest2) with
            | none => none
            | some (fields, r) => some (Json.obj (dictFromList fields), r)
      else if c = '[' then
        match skipWs rest with
        | [] => none
        | c2 :: rest2 =>
          if c2 = ']' then some (Json.arr [], rest2)
          else
            match parseElems fuel (c2 :: rest2) with
            | none => none
            | some (xs, r) => some (Json.arr xs, r)
      else if c = 't' then
        match rest with
        | 'r' :: 'u' :: 'e' :: r => some (Json.bool true, r)
        | _ => none
      else if c = 'f' then
        match rest with
        | 'a' :: 'l' :: 's' :: 'e' :: r => some (Json.bool false, r)
        | _ => none
      else if c = 'n' then
        match rest with
        | 'u' :: 'l' :: 'l' :: r => some (Json.null, r)
        | _ => none
      else parseNumber (c :: rest)

/-- Scan the members of a non-empty object; the input starts at the first
key's opening quote. -/
def parseMembers : Nat → List Char → Option (List (String × Json) × List Char)
  | 0, _ => none
  | fuel + 1, cs =>
    match cs with
    | [] => none
    | c :: rest =>
      if c = '"' then
        match parseStrBody rest with
        | none => none
        | some (kcs, afterKey) =>
          match skipWs afterKey with
          | [] => none
          | c1 :: afterColon =>
            if c1 = ':' then
              match parseValue fuel afterColon with
              | none => none
              | some (v, afterVal) =>
                match skipWs afterVal with
                | [] => none
                | c2 :: after2 =>
                  if c2 = ',' then
                    match parseMembers fuel (skipWs after2) with
                    | none => none
                    | some (fields, r) => some ((String.mk kcs, v) :: fields, r)
                  else if c2 = rbraceChar then some ([(String.mk kcs, v)], after2)
                  else none
            else none
      else none

/-- Scan the elements of a non-empty array; the input starts at the first
element. -/
def parseElems : Nat → List Char → Option (List Json × List Char)
  | 0, _ => none
  | fuel + 1, cs =>
    match parseValue fuel cs with
    | none => none
    | some (v, afterVal) =>
      match skipWs afterVal with
      | [] => none
      | c :: after =>
        if c = ',' then
          match parseElems fuel after with
          | none => none
          | some (xs, r) => some (v :: xs, r)
        else if c = ']' then some ([v], after)
        else none

end

instance {ε α : Type} [DecidableEq ε] [DecidableEq α] : DecidableEq (Except ε α) := fun x y =>
  match x, y with
  | .ok a, .ok b => if h : a = b then .isTrue (by rw [h]) else .isFalse (by simp [h])
  | .error a, .error b => if h : a = b then .isTrue (by rw [h]) else .isFalse (by simp [h])
  | .ok _, .error _ => .isFalse (by simp)
  | .error _, .ok _ => .isFalse (by simp)

/-- Python 2 `json.loads` with default arguments: scan one value, then require
only whitespace to follow.  Failure raises `ValueError`. -/
def pyJsonLoads (s : String) : Except PyErr Json :=
  match parseValue (s.length + 1) s.data with
  | none => .error (.valueError "No JSON object could be decoded")
  | some (v, rest) =>
    if skipWs rest = [] then .ok v else .error (.valueError "Extra data")

example : Json.dumps (Json.obj [("posData", Json.str "cust-ref-42")]) =
    "\x7b\"posData\": \"cust-ref-42\"\x7d" := by decide

example : pyJsonLoads "\x7b\"a\": \"b\", \"c\": [1, true, null]\x7d" =
    .ok (Json.obj [("a", Json.str "b"), ("c", Json.arr [Json.num 1, Json.bool true, Json.null])]) := by
  decide

example : pyJsonLoads (Json.dumps (Json.obj [("posData", Json.str "x\"y\\z")])) =
    .ok (Json.obj [("posData", Json.str "x\"y\\z")]) := by decide

/-! ## Round-trip of `json.loads` over `json.dumps` on string data -/

theorem hexDigitVal_toHexDigit_fin : ∀ d : Fin 16, hexDigitVal (toHexDigit d.val) = some d.val := by
  decide

theorem hexDigitVal_toHexDigit (d : Nat) (h : d < 16) : hexDigitVal (toHexDigit d) = some d :=
  hexDigitVal_toHexDigit_fin ⟨d, h⟩

theorem char_toNat_valid (c : Char) : c.toNat < 55296 ∨ (57343 < c.toNat ∧ c.toNat < 1114112) := by
  rcases c.valid with h | ⟨h1, h2⟩
  · exact Or.inl h
  · exact Or.inr ⟨h1, h2⟩

theorem strScan_norm_quote (cs acc : List Char) :
    strScan ('"' :: cs) .norm acc = some (acc.reverse, cs) := by
  simp [strScan]

theorem strScan_norm_backslash (cs acc : List Char) :
    strScan ('\\' :: cs) .norm acc = strScan cs .esc acc := by
  simp [strScan]

theorem strScan_norm_plain (c : Char) (cs acc : List Char) (h1 : c ≠ '"') (h2 : c ≠ '\\')
    (h3 : ¬c.toNat < 32) : strScan (c :: cs) .norm acc = strScan cs .norm (c :: acc) := by
  simp [strScan, h1, h2, h3]

theorem strScan_esc_u (cs acc : List Char) :
    strScan ('u' :: cs) .esc acc = strScan cs (.hex 4 0 none) acc := by
  simp [strScan]

theorem strScan_esc_simple (c d : Char) (cs acc : List Char) (hu : c ≠ 'u')
    (h : simpleEscape c = some d) :
    strScan (c :: cs) .esc acc = strScan cs .norm (d :: acc) := by
  simp [strScan, hu, h]

theorem strScan_hex_step4 (c : Char) (cs acc : List Char) (a : Nat) (hi : Option Nat) (d : Nat)
    (hc : hexDigitVal c = some d) :
    strScan (c :: cs) (.hex 4 a hi) acc = strScan cs (.hex 3 (a * 16 + d) hi) acc := by
  simp [strScan, hc]

theorem strScan_hex_step3 (c : Char) (cs acc : List Char) (a : Nat) (hi : Option Nat) (d : Nat)
    (hc : hexDigitVal c = some d) :
    strScan (c :: cs) (.hex 3 a hi) acc = strScan cs (.hex 2 (a * 16 + d) hi) acc := by
  simp [strScan, hc]

theorem strScan_hex_step2 (c : Char) (cs acc : List Char) (a : Nat) (hi : Option Nat) (d : Nat)
    (hc : hexDigitVal c = some d) :
    strScan (c :: cs) (.hex 2 a hi) acc = strScan cs (.hex 1 (a * 16 + d) hi) acc := by
  simp [strScan, hc]

theorem strScan_hex_last_bmp (c : Char) (cs acc : List Char) (a d : Nat)
    (hc : hexDigitVal c = some d) (h1 : ¬(55296 ≤ a * 16 + d ∧ a * 16 + d ≤ 56319))
    (h2 : ¬(56320 ≤ a * 16 + d ∧ a * 16 + d ≤ 57343)) :
    strScan (c :: cs) (.hex 1 a none) acc = strScan cs .norm (Char.ofNat (a * 16 + d) :: acc) := by
  simp [strScan, hc, h1, h2]

theorem strScan_hex_last_high (c : Char) (cs acc : List Char) (a d : Nat)
    (hc : hexDigitVal c = some d) (h1 : 55296 ≤ a * 16 + d ∧ a * 16 + d ≤ 56319) :
    strScan (c :: cs) (.hex 1 a none) acc = strScan cs (.pairSlash (a * 16 + d)) acc := by
  simp [strScan, hc, h1]

theorem strScan_pairSlash_step (cs acc : List Char) (h : Nat) :
    strScan ('\\' :: cs) (.pairSlash h) acc = strScan cs (.pairU h) acc := by
  simp [strScan]

theorem strScan_pairU_step (cs acc : List Char) (h : Nat) :
    strScan ('u' :: cs) (.pairU h) acc = strScan cs (.hex 4 0 (some h)) acc := by
  simp [strScan]

theorem strScan_hex_last_low (c : Char) (cs acc : List Char) (a d hsur : Nat)
    (hc : hexDigitVal c = some d) (h1 : 56320 ≤ a * 16 + d ∧ a * 16 + d ≤ 57343) :
    strScan (c :: cs) (.hex 1 a (some hsur)) acc =
      strScan cs .norm (Char.ofNat (65536 + (hsur - 55296) * 1024 + (a * 16 + d - 56320)) :: acc) := by
  simp [strScan, hc, h1]

/-- Scanning the escape of one character consumes exactly that escape and
pushes the character on the accumulator. -/
theorem strScan_escapeChar (c : Char) (rest acc : List Char) :
    strScan (escapeChar c ++ rest) .norm acc = strScan rest .norm (c :: acc) := by
  by_cases hq : c = '"'
  · subst hq; simp [escapeChar, strScan, simpleEscape]
  by_cases hb : c = '\\'
  · subst hb; simp [escapeChar, strScan, simpleEscape]
  by_cases h08 : c = '\x08'
  · subst h08; simp [escapeChar, strScan, simpleEscape]
  by_cases h0c : c = '\x0c'
  · subst h0c; simp [escapeChar, strScan, simpleEscape]
  by_cases h0a : c = '\n'
  · subst h0a; simp [escapeChar, strScan, simpleEscape]
  by_cases h0d : c = '\r'
  · subst h0d; simp [escapeChar, strScan, simpleEscape]
  by_cases h09 : c = '\t'
  · subst h09; simp [escapeChar, strScan, simpleEscape]
  by_cases hesc : c.toNat < 32 ∨ 127 ≤ c.toNat
  · have hval := char_toNat_valid c
    by_cases hlt : c.toNat < 65536
    · -- BMP character: one `\uXXXX` escape
      have hd1 : c.toNat / 4096 % 16 < 16 := Nat.mod_lt _ (by norm_num)
      have hd2 : c.toNat / 256 % 16 < 16 := Nat.mod_lt _ (by norm_num)
      have hd3 : c.toNat / 16 % 16 < 16 := Nat.mod_lt _ (by norm_num)
      have hd4 : c.toNat % 16 < 16 := Nat.mod_lt _ (by norm_num)
      simp only [escapeChar, if_neg hq, if_neg hb, if_neg h08, if_neg h0c, if_neg h0a,
        if_neg h0d, if_neg h09, if_pos hesc, uEscapeChar, if_pos hlt, hex4, List.cons_append,
        List.nil_append]
      rw [strScan_norm_backslash, strScan_esc_u,
        strScan_hex_step4 _ _ _ _ _ _ (hexDigitVal_toHexDigit _ hd1),
        strScan_hex_step3 _ _ _ _ _ _ (hexDigitVal_toHexDigit _ hd2),
        strScan_hex_step2 _ _ _ _ _ _ (hexDigitVal_toHexDigit _ hd3),
        strScan_hex_last_bmp _ _ _ _ _ (hexDigitVal_toHexDigit _ hd4) (by omega) (by omega)]
      have hA : (((0 * 16 + c.toNat / 4096 % 16) * 16 + c.toNat / 256 % 16) * 16 +
          c.toNat / 16 % 16) * 16 + c.toNat % 16 = c.toNat := by omega
      rw [hA, Char.ofNat_toNat]
    · -- supplementary character: a surrogate pair
      have hge : ¬c.toNat < 65536 := hlt
      simp only [escapeChar, if_neg hq, if_neg hb, if_neg h08, if_neg h0c, if_neg h0a,
        if_neg h0d, if_neg h09, if_pos hesc, uEscapeChar, if_neg hge, hex4, List.cons_append,
        List.nil_append, List.append_assoc]
      set m := c.toNat - 65536 with hm
      set B := 55296 + m / 1024 with hB
      set C := 56320 + m % 1024 with hC
      have hmlt : m < 1048576 := by omega
      have hmod : m % 1024 < 1024 := Nat.mod_lt _ (by norm_num)
      have hdivle : m / 1024 ≤ 1023 := by omega
      have hy1 : B / 4096 % 16 < 16 := Nat.mod_lt _ (by norm_num)
      have hy2 : B / 256 % 16 < 16 := Nat.mod_lt _ (by norm_num)
      have hy3 : B / 16 % 16 < 16 := Nat.mod_lt _ (by norm_num)
      have hy4 : B % 16 < 16 := Nat.mod_lt _ (by norm_num)
      have hz1 : C / 4096 % 16 < 16 := Nat.mod_lt _ (by norm_num)
      have hz2 : C / 256 % 16 < 16 := Nat.mod_lt _ (by norm_num)
      have hz3 : C / 16 % 16 < 16 := Nat.mod_lt _ (by norm_num)
      have hz4 : C % 16 < 16 := Nat.mod_lt _ (by norm_num)
      rw [strScan_norm_backslash, strScan_esc_u,
        strScan_hex_step4 _ _ _ _ _ _ (hexDigitVal_toHexDigit _ hy1),
        strScan_hex_step3 _ _ _ _ _ _ (hexDigitVal_toHexDigit _ hy2),
        strScan_hex_step2 _ _ _ _ _ _ (hexDigitVal_toHexDigit _ hy3),
        strScan_hex_last_high _ _ _ _ _ (hexDigitVal_toHexDigit _ hy4) (by omega),
        strScan_pairSlash_step, strScan_pairU_step,
        strScan_hex_step4 _ _ _ _ _ _ (hexDigitVal_toHexDigit _ hz1),
        strScan_hex_step3 _ _ _ _ _ _ (hexDigitVal_toHexDigit _ hz2),
        strScan_hex_step2 _ _ _ _ _ _ (hexDigitVal_toHexDigit _ hz3),
        strScan_hex_last_low _ _ _ _ _ _ (hexDigitVal_toHexDigit _ hz4) (by omega)]
      have hfin : 65536 +
          ((((0 * 16 + B / 4096 % 16) * 16 + B / 256 % 16) * 16 + B / 16 % 16) * 16 + B % 16 -
            55296) * 1024 +
          ((((0 * 16 + C / 4096 % 16) * 16 + C / 256 % 16) * 16 + C / 16 % 16) * 16 + C % 16 -
            56320) = c.toNat := by omega
      rw [hfin, Char.ofNat_toNat]
  · -- plain printable character, emitted verbatim
    have h32 : ¬c.toNat < 32 := fun h => hesc (Or.inl h)
    simp only [escapeChar, if_neg hq, if_neg hb, if_neg h08, if_neg h0c, if_neg h0a, if_neg h0d,
      if_neg h09, if_neg hesc, List.singleton_append]
    exact strScan_norm_plain c rest acc hq hb h32

/-- Scanning the escaped body of a string up to its closing quote recovers the
original characters and the input past the quote. -/
theorem strScan_escapeList (s tail acc : List Char) :
    strScan (escapeList s ++ '"' :: tail) .norm acc = some (acc.reverse ++ s, tail) := by
  induction s generalizing acc with
  | nil => simp [escapeList, strScan_norm_quote]
  | cons c s2 ih =>
      simp only [escapeList, List.append_assoc]
      rw [strScan_escapeChar, ih]
      simp

/-- `parseStrBody` inverts the serializer's string-body escaping. -/
theorem parseStrBody_escapeList (s tail : List Char) :
    parseStrBody (escapeList s ++ '"' :: tail) = some (s, tail) := by
  have h := strScan_escapeList s tail []
  simpa [parseStrBody] using h

theorem String.mk_data (s : String) : String.mk s.data = s := rfl

theorem skipWs_not_ws (c : Char) (cs : List Char) (h : isJsonWs c = false) :
    skipWs (c :: cs) = c :: cs := by
  simp [skipWs, List.dropWhile, h]

theorem skipWs_space (cs : List Char) : skipWs (' ' :: cs) = skipWs cs := by
  simp [skipWs, List.dropWhile, isJsonWs]

/-- `dictSet` on an absent key appends. -/
theorem dictSet_append_of_not_mem (d : List (String × Json)) (k : String) (v : Json)
    (h : ¬k ∈ d.map Prod.fst) : dictSet d k v = d ++ [(k, v)] := by
  induction d with
  | nil => simp [dictSet]
  | cons p rest ih =>
      obtain ⟨a, w⟩ := p
      simp only [List.map, List.mem_cons] at h
      push_neg at h
      have : ¬a = k := fun hh => h.1 hh.symm
      simp [dictSet, this, ih h.2]

theorem skipWs_lbrace (cs : List Char) : skipWs (lbraceChar :: cs) = lbraceChar :: cs :=
  skipWs_not_ws _ _ (by decide)

theorem skipWs_quote (cs : List Char) : skipWs ('"' :: cs) = '"' :: cs :=
  skipWs_not_ws _ _ (by decide)

theorem skipWs_colon (cs : List Char) : skipWs (':' :: cs) = ':' :: cs :=
  skipWs_not_ws _ _ (by decide)

theorem skipWs_comma (cs : List Char) : skipWs (',' :: cs) = ',' :: cs :=
  skipWs_not_ws _ _ (by decide)

theorem skipWs_rbrace (cs : List Char) : skipWs (rbraceChar :: cs) = rbraceChar :: cs :=
  skipWs_not_ws _ _ (by decide)

/-- Scanning a JSON string literal preceded by one space. -/
theorem parseValue_spaceStr (g : Nat) (s : String) (rest : List Char) :
    parseValue (g + 1) (' ' :: '"' :: (escapeList s.data ++ '"' :: rest)) =
      some (Json.str s, rest) := by
  rw [parseValue, skipWs_space, skipWs_quote]
  simp [parseStrBody_escapeList, String.mk_data]

/-- Scanning the serialized two-field posData envelope: the exact object
`json.loads` recovers from `json.dumps({"posData": x, "hash": h})`. -/
theorem parseValue_envelope (g : Nat) (x h : String) (rest : List Char) :
    parseValue (g + 4)
        (lbraceChar :: '"' :: (escapeList "posData".data ++ '"' :: ':' :: ' ' :: '"' ::
          (escapeList x.data ++ '"' :: ',' :: ' ' :: '"' ::
            (escapeList "hash".data ++ '"' :: ':' :: ' ' :: '"' ::
              (escapeList h.data ++ '"' :: rbraceChar :: rest))))) =
      some (Json.obj [("posData", Json.str x), ("hash", Json.str h)], rest) := by
  rw [show g + 4 = (g + 3) + 1 from rfl, parseValue, skipWs_lbrace]
  simp only [if_neg (show ¬lbraceChar = '"' by decide), if_pos rfl, skipWs_quote,
    if_neg (show ¬('"' : Char) = rbraceChar by decide)]
  rw [show g + 3 = (g + 2) + 1 from rfl, parseMembers]
  simp only [if_pos rfl, parseStrBody_escapeList, String.mk_data, skipWs_colon]
  rw [show g + 2 = (g + 1) + 1 from rfl]
  simp only [parseValue_spaceStr, skipWs_comma, if_pos rfl,
    if_neg (show ¬(',' : Char) = rbraceChar by decide), skipWs_space, skipWs_quote,
    parseMembers, parseStrBody_escapeList, String.mk_data, skipWs_rbrace,
    if_neg (show ¬rbraceChar = ',' by decide)]
  simp only [skipWs_colon, if_pos rfl, parseValue_spaceStr, skipWs_rbrace,
    if_neg (show ¬rbraceChar = ',' by decide)]
  simp [dictFromList, dictSet]

theorem data_mk (l : List Char) : (String.mk l).data = l := rfl

/-- `json.loads` inverts `json.dumps` on the two-field posData envelope. -/
theorem pyJsonLoads_envelope (x h : String) :
    pyJsonLoads (Json.dumps (Json.obj [("posData", Json.str x), ("hash", Json.str h)])) =
      .ok (Json.obj [("posData", Json.str x), ("hash", Json.str h)]) := by
  have d1 : ("\x7b" : String).data = [lbraceChar] := rfl
  have d2 : ("\x7d" : String).data = [rbraceChar] := rfl
  have d3 : ("\"" : String).data = ['"'] := rfl
  have d4 : (": " : String).data = [':', ' '] := rfl
  have d5 : (", " : String).data = [',', ' '] := rfl
  set s := Json.dumps (Json.obj [("posData", Json.str x), ("hash", Json.str h)]) with hs
  have hdata : s.data = lbraceChar :: '"' :: (escapeList "posData".data ++ '"' :: ':' :: ' ' ::
      '"' :: (escapeList x.data ++ '"' :: ',' :: ' ' :: '"' ::
        (escapeList "hash".data ++ '"' :: ':' :: ' ' :: '"' ::
          (escapeList h.data ++ '"' :: rbraceChar :: [])))) := by
    rw [hs]
    simp only [Json.dumps, Json.dumpsFields, quoteStr, String.data_append, data_mk, d1, d2, d3,
      d4, d5, List.cons_append, List.nil_append, List.append_assoc, List.singleton_append]
    rfl
  have hlen : s.length = s.data.length := rfl
  have h3 : 3 ≤ s.length := by
    rw [hlen, hdata]
    simp [List.length_append]
    omega
  rw [pyJsonLoads]
  rw [show s.length + 1 = (s.length - 3) + 4 by omega]
  rw [hdata, parseValue_envelope]
  simp [skipWs]


/-! ## HMAC-SHA256 and base64

`bpHash` calls `hmac.new(key, data, sha256)` and
`binascii.b2a_base64(digest)[:-1]`.  We embed SHA-256 (FIPS 180-4), HMAC
(RFC 2104) and base64 (RFC 4648) over byte lists, bytes as `Nat` values below
256.  Python 2 `str` arguments are byte strings; text is taken UTF-8
encoded. -/

/-- UTF-8 encoding of one character. -/
def utf8Bytes (c : Char) : List Nat :=
  let n := c.toNat
  if n < 128 then [n]
  else if n < 2048 then [192 + n / 64, 128 + n % 64]
  else if n < 65536 then [224 + n / 4096, 128 + n / 64 % 64, 128 + n % 64]
  else [240 + n / 262144, 128 + n / 4096 % 64, 128 + n / 64 % 64, 128 + n % 64]

/-- Bytes of a string (UTF-8). -/
def strBytes (s : String) : List Nat :=
  (s.data.map utf8Bytes).flatten

/-- Truncate to a 32-bit word. -/
def w32 (n : Nat) : Nat := n % 4294967296

/-- 32-bit right rotation. -/
def rotr (n x : Nat) : Nat := w32 ((x >>> n) ||| (x <<< (32 - n)))

/-- SHA-256 `Ch`. -/
def shaCh (x y z : Nat) : Nat := (x &&& y) ^^^ ((x ^^^ 4294967295) &&& z)

/-- SHA-256 `Maj`. -/
def shaMaj (x y z : Nat) : Nat := (x &&& y) ^^^ (x &&& z) ^^^ (y &&& z)

/-- SHA-256 `Σ0`. -/
def bigSigma0 (x : Nat) : Nat := rotr 2 x ^^^ rotr 13 x ^^^ rotr 22 x

/-- SHA-256 `Σ1`. -/
def bigSigma1 (x : Nat) : Nat := rotr 6 x ^^^ rotr 11 x ^^^ rotr 25 x

/-- SHA-256 `σ0`. -/
def smallSigma0 (x : Nat) : Nat := rotr 7 x ^^^ rotr 18 x ^^^ (x >>> 3)

/-- SHA-256 `σ1`. -/
def smallSigma1 (x : Nat) : Nat := rotr 17 x ^^^ rotr 19 x ^^^ (x >>> 10)

/-- SHA-256 round constants. -/
def k256 : List Nat :=
  [1116352408, 1899447441, 3049323471, 3921009573, 961987163, 1508970993, 2453635748, 2870763221,
   3624381080, 310598401, 607225278, 1426881987, 1925078388, 2162078206, 2614888103, 3248222580,
   3835390401, 4022224774, 264347078, 604807628, 770255983, 1249150122, 1555081692, 1996064986,
   2554220882, 2821834349, 2952996808, 3210313671, 3336571891, 3584528711, 113926993, 338241895,
   666307205, 773529912, 1294757372, 1396182291, 1695183700, 1986661051, 2177026350, 2456956037,
   2730485921, 2820302411, 3259730800, 3345764771, 3516065817, 3600352804, 4094571909, 275423344,
   430227734, 506948616, 659060556, 883997877, 958139571, 1322822218, 1537002063, 1747873779,
   1955562222, 2024104815, 2227730452, 2361852424, 2428436474, 2756734187, 3204031479, 3329325298]

/-- SHA-256 initial hash value. -/
def h256 : List Nat :=
  [1779033703, 3144134277, 1013904242, 2773480762, 1359893119, 2600822924, 528734635, 1541459225]

/-- Big-endian 8-byte rendering. -/
def be64 (n : Nat) : List Nat :=
  [n >>> 56 % 256, n >>> 48 % 256, n >>> 40 % 256, n >>> 32 % 256,
   n >>> 24 % 256, n >>> 16 % 256, n >>> 8 % 256, n % 256]

/-- Big-endian 4-byte rendering. -/
def be32 (n : Nat) : List Nat :=
  [n >>> 24 % 256, n >>> 16 % 256, n >>> 8 % 256, n % 256]

/-- SHA-256 message padding: `0x80`, zeros to 56 mod 64, 8-byte bit length. -/
def sha256Pad (msg : List Nat) : List Nat :=
  let L := msg.length
  msg ++ 128 :: List.replicate ((119 - L % 64) % 64) 0 ++ be64 (8 * L)

/-- Split a byte list into 64-byte blocks; the fuel argument (any bound on the
number of blocks, `toBlocks` passes the length) keeps the recursion
structural. -/
def toBlocksFuel : Nat → List Nat → List (List Nat)
  | 0, _ => []
  | _, [] => []
  | n + 1, bs => bs.take 64 :: toBlocksFuel n (bs.drop 64)

/-- Split a byte list into 64-byte blocks. -/
def toBlocks (bs : List Nat) : List (List Nat) :=
  toBlocksFuel bs.length bs

/-- Big-endian 32-bit words of a block. -/
def blockWords : List Nat → List Nat
  | a :: b :: c :: d :: rest => (a * 16777216 + b * 65536 + c * 256 + d) :: blockWords rest
  | _ => []

/-- Extend the message schedule by `n` words; the accumulator holds the words
so far in reverse (most recent first). -/
def extendSchedule : Nat → List Nat → List Nat
  | 0, rw => rw
  | n + 1, rw =>
    let wt := w32 (smallSigma1 (rw.getD 1 0) + rw.getD 6 0 + smallSigma0 (rw.getD 14 0) +
      rw.getD 15 0)
    extendSchedule n (wt :: rw)

/-- The 64-word message schedule of a block. -/
def schedule (block : List Nat) : List Nat :=
  (extendSchedule 48 (blockWords block).reverse).reverse

/-- SHA-256 working state. -/
structure ShaState : Type where
  a : Nat
  b : Nat
  c : Nat
  d : Nat
  e : Nat
  f : Nat
  g : Nat
  hh : Nat

/-- One SHA-256 compression round; `kw` pairs the round constant with the
schedule word. -/
def shaRound (st : ShaState) (kw : Nat × Nat) : ShaState :=
  let t1 := w32 (st.hh + bigSigma1 st.e + shaCh st.e st.f st.g + kw.1 + kw.2)
  let t2 := w32 (bigSigma0 st.a + shaMaj st.a st.b st.c)
  ⟨w32 (t1 + t2), st.a, st.b, st.c, w32 (st.d + t1), st.e, st.f, st.g⟩

/-- Compress one block into the running hash (8 words). -/
def processBlock (hs : List Nat) (block : List Nat) : List Nat :=
  let st0 : ShaState :=
    ⟨hs.getD 0 0, hs.getD 1 0, hs.getD 2 0, hs.getD 3 0, hs.getD 4 0, hs.getD 5 0, hs.getD 6 0,
      hs.getD 7 0⟩
  let st := (k256.zip (schedule block)).foldl shaRound st0
  [w32 (hs.getD 0 0 + st.a), w32 (hs.getD 1 0 + st.b), w32 (hs.getD 2 0 + st.c),
   w32 (hs.getD 3 0 + st.d), w32 (hs.getD 4 0 + st.e), w32 (hs.getD 5 0 + st.f),
   w32 (hs.getD 6 0 + st.g), w32 (hs.getD 7 0 + st.hh)]

/-- SHA-256 digest (32 bytes) of a byte list. -/
def sha256Bytes (msg : List Nat) : List Nat :=
  (((toBlocks (sha256Pad msg)).foldl processBlock h256).map be32).flatten

/-- HMAC-SHA256 (RFC 2104) with a 64-byte block size, as `hmac.new(key, msg,
sha256).digest()` computes it. -/
def hmacSha256 (key msg : List Nat) : List Nat :=
  let k0 := if 64 < key.length then sha256Bytes key else key
  let k1 := k0 ++ List.replicate (64 - k0.length) 0
  let ipad := k1.map (fun b => b ^^^ 54)
  let opad := k1.map (fun b => b ^^^ 92)
  sha256Bytes (opad ++ sha256Bytes (ipad ++ msg))

/-- The base64 alphabet. -/
def b64Char (n : Nat) : Char :=
  "ABCDEFGHIJKLMNOPQRSTUVWXYZabcdefghijklmnopqrstuvwxyz0123456789+/".data.getD n 'A'

/-- RFC 4648 base64 encoding with padding. -/
def base64EncodeList : List Nat → List Char
  | [] => []
  | [a] =>
    let n := a * 65536
    [b64Char (n / 262144), b64Char (n / 4096 % 64), '=', '=']
  | [a, b] =>
    let n := a * 65536 + b * 256
    [b64Char (n / 262144), b64Char (n / 4096 % 64), b64Char (n / 64 % 64), '=']
  | a :: b :: c :: rest =>
    let n := a * 65536 + b * 256 + c
    b64Char (n / 262144) :: b64Char (n / 4096 % 64) :: b64Char (n / 64 % 64) :: b64Char (n % 64) ::
      base64EncodeList rest

/-- `base64.b64encode` on bytes, as a string. -/
def base64Encode (bs : List Nat) : String :=
  String.mk (base64EncodeList bs)

/-- `binascii.b2a_base64`: base64 encoding followed by a newline. -/
def b2aBase64 (bs : List Nat) : String :=
  base64Encode bs ++ "\n"

/-- `bpHash(data, key)` from `bp_lib.py`: keyed digest
`binascii.b2a_base64(hmac.new(key, data, sha256).digest())[:-1]` (the slice
drops the final character). -/
def bpHash (data key : String) : String :=
  String.mk (b2aBase64 (hmacSha256 (strBytes key) (strBytes data))).data.dropLast

example : sha256Bytes (strBytes "abc") =
    [0xba, 0x78, 0x16, 0xbf, 0x8f, 0x01, 0xcf, 0xea, 0x41, 0x41, 0x40, 0xde, 0x5d, 0xae, 0x22,
     0x23, 0xb0, 0x03, 0x61, 0xa3, 0x96, 0x17, 0x7a, 0x9c, 0xb4, 0x10, 0xff, 0x61, 0xf2, 0x00,
     0x15, 0xad] := by decide

example : bpHash "data" "key" = "UDH+PZicbRU3oBP6bnOdojRj/a7DtwE32Cjjas4iG9A=" := by decide

example : bpHash "" "" = "thNnmggU2ex3L5XXeMNfxf8Wl8STcVZTxscSFEKSxa0=" := by decide

/-! ## Python value semantics used by the library -/

/-- Python truthiness of a JSON-like value (`if x:`). -/
def pyTruthy : Json → Bool
  | .str s => s ≠ ""
  | .num n => n ≠ 0
  | .bool b => b
  | .null => false
  | .arr xs => xs ≠ []
  | .obj fs => fs ≠ []

/-- Python 2 `str.strip()` whitespace. -/
def pyIsSpace (c : Char) : Bool :=
  c = ' ' || c = '\t' || c = '\n' || c = '\r' || c = '\x0b' || c = '\x0c'

/-- Python `s.strip()`: drop whitespace from both ends. -/
def pyStrip (s : String) : String :=
  String.mk (((s.data.dropWhile pyIsSpace).reverse.dropWhile pyIsSpace).reverse)

/-- Substring test on character lists (Python `needle in hay` for strings). -/
def strContains (hay needle : List Char) : Bool :=
  needle.isPrefixOf hay ||
    match hay with
    | [] => false
    | _ :: t => strContains t needle

/-- Python `k in j` for a string `k`: key test on dicts, element test on
lists, substring test on strings; other values are not containers and raise
`TypeError`. -/
def pyContains (j : Json) (k : String) : Except PyErr Bool :=
  match j with
  | .obj fs => .ok (dictGet fs k).isSome
  | .arr xs => .ok (xs.contains (Json.str k))
  | .str s => .ok (strContains s.data k.data)
  | _ => .error (.typeError "argument is not iterable")

/-- Python `j[k]` for a string `k`: dict lookup (`KeyError` when absent);
strings and lists demand integer indices; other values are unsubscriptable. -/
def pyGetItem (j : Json) (k : String) : Except PyErr Json :=
  match j with
  | .obj fs =>
    (match dictGet fs k with
    | some v => .ok v
    | none => .error (.keyError k))
  | .str _ => .error (.typeError "string indices must be integers")
  | .arr _ => .error (.typeError "list indices must be integers, not str")
  | _ => .error (.typeError "object is unsubscriptable")

/-- Python `j[k] = v` for a string `k`: dict update in place; any other value
does not support item assignment. -/
def pySetItem (j : Json) (k : String) (v : Json) : Except PyErr Json :=
  match j with
  | .obj fs => .ok (.obj (dictSet fs k v))
  | _ => .error (.typeError "object does not support item assignment")

mutual

/-- `sanitize_dict` from `bp_lib.py`: strings are coerced with `str`, mappings
are rebuilt entry by entry (the source maps `sanitize_dict` over each
`(key, value)` tuple from `iteritems`, which rebuilds the tuple with both
components sanitized — keys are strings, so this sanitizes the key as a
string and the value recursively), other iterables are rebuilt element-wise,
and remaining scalars pass through unchanged.  At the embedding's level of
text (`String`), `str` of a string is the identity. -/
def sanitize_dict : Json → Json
  | .str s => .str s
  | .obj fs => .obj (sanitizeFields fs)
  | .arr xs => .arr (sanitizeList xs)
  | .num n => .num n
  | .bool b => .bool b
  | .null => .null

def sanitizeFields : List (String × Json) → List (String × Json)
  | [] => []
  | (k, v) :: rest => (k, sanitize_dict v) :: sanitizeFields rest

def sanitizeList : List Json → List Json
  | [] => []
  | v :: rest => sanitize_dict v :: sanitizeList rest

end

/-- Python 2 `str()` applied to a *unicode* string.  Every string produced by
`json.loads` is a `unicode` object, and `str(u)` encodes it with the default
`ascii` codec: the identity on pure-ASCII values, a raised
`UnicodeEncodeError` as soon as any code point is 128 or above. -/
def py2StrUnicode (s : String) : Except PyErr String :=
  if s.data.all (fun c => c.toNat < 128) then .ok s
  else .error (.unicodeEncodeError "ascii codec cannot encode character")

mutual

/-- `sanitize_dict` applied to a value of *unicode* provenance (the values
`bpVerifyNotification` feeds it at line 197 all come out of `json.loads`):
the same traversal as `sanitize_dict`, except that `str` on each string —
values and dict keys alike — is the `ascii` encode of `py2StrUnicode` and
raises `UnicodeEncodeError` on non-ASCII input. -/
def sanitize_dict_u : Json → Except PyErr Json
  | .str s =>
    (match py2StrUnicode s with
     | .error e => .error e
     | .ok t => .ok (.str t))
  | .obj fs =>
    (match sanitizeFieldsU fs with
     | .error e => .error e
     | .ok gs => .ok (.obj gs))
  | .arr xs =>
    (match sanitizeListU xs with
     | .error e => .error e
     | .ok ys => .ok (.arr ys))
  | .num n => .ok (.num n)
  | .bool b => .ok (.bool b)
  | .null => .ok .null

def sanitizeFieldsU : List (String × Json) → Except PyErr (List (String × Json))
  | [] => .ok []
  | (k, v) :: rest =>
    match py2StrUnicode k with
    | .error e => .error e
    | .ok k2 =>
      match sanitize_dict_u v with
      | .error e => .error e
      | .ok v2 =>
        match sanitizeFieldsU rest with
        | .error e => .error e
        | .ok rest2 => .ok ((k2, v2) :: rest2)

def sanitizeListU : List Json → Except PyErr (List Json)
  | [] => .ok []
  | v :: rest =>
    match sanitize_dict_u v with
    | .error e => .error e
    | .ok v2 =>
      match sanitizeListU rest with
      | .error e => .error e
      | .ok rest2 => .ok (v2 :: rest2)

end

mutual

/-- Python `repr` of a JSON-like value (used by `str` on containers).  The
escaping Python applies inside `repr` of a string is not modelled; every
claim evaluates `pyStr` only on strings, where `str` is the identity and
`repr` never runs. -/
def pyRepr : Json → String
  | .str s => "'" ++ s ++ "'"
  | .num n => toString n
  | .bool true => "True"
  | .bool false => "False"
  | .null => "None"
  | .arr xs => "[" ++ pyReprList xs ++ "]"
  | .obj fs => "\x7b" ++ pyReprFields fs ++ "\x7d"

def pyReprList : List Json → String
  | [] => ""
  | [x] => pyRepr x
  | x :: y :: xs => pyRepr x ++ ", " ++ pyReprList (y :: xs)

def pyReprFields : List (String × Json) → String
  | [] => ""
  | [(k, v)] => "'" ++ k ++ "': " ++ pyRepr v
  | (k, v) :: p :: fs => "'" ++ k ++ "': " ++ pyRepr v ++ ", " ++ pyReprFields (p :: fs)

end

/-- Python `str()` of a JSON-like value: identity on strings, `True`/`False`,
`None`, decimal rendering of integers, `repr` for containers. -/
def pyStr : Json → String
  | .str s => s
  | .num n => toString n
  | .bool true => "True"
  | .bool false => "False"
  | .null => "None"
  | v => pyRepr v

/-! ## The library operations -/

/-- A process-wide configuration mapping (`bp_options.bpOptions`).  The
library reads it through the module global; the embedding passes it
explicitly to every operation that reads it. -/
abbrev Config := List (String × Json)

/-- Outcome of `bpCurl` up to the network boundary: either the precondition
error dict returned without any I/O, or the authenticated request it issues
(`opener.open`).  The request records the exact authorization header framing,
`Basic base64(apiKey)` with no colon or password component, and the raw
optional POST body; the form-encoding of the body and the response handling
happen at or beyond the network call and are outside the model. -/
inductive CurlResult : Type where
  | errorDict (j : Json)
  | request (url : String) (authHeader : String) (post : Option String)
  deriving Repr, DecidableEq

/-- `bpCurl(url, api_key, post)` from `bp_lib.py`, up to the network
boundary: both `url.strip()` and `api_key.strip()` must be truthy, else the
blank-input error dict is returned. -/
def bpCurl (url api_key : String) (post : Option String) : CurlResult :=
  if pyTruthy (.str (pyStrip url)) && pyTruthy (.str (pyStrip api_key)) then
    .request url ("Basic " ++ base64Encode (strBytes api_key)) post
  else
    .errorDict (Json.obj [("error", Json.str "url or apiKey were blank.")])

/-- Lines 138-144 of `bp_lib.py`: the posData envelope dict — the merchant
value under `"posData"`, plus, when the global `verifyPos` option is truthy,
`"hash"` bound to `bpHash(str(sanitize_dict(pos_data)), options['apiKey'])`
(the api key comes from the merged options).  A missing `verifyPos` or
`apiKey` key raises `KeyError`; a non-string api key raises `TypeError`
inside `hmac.new`. -/
def bpInvoiceEnvelope (bpOptions options : Config) (pos_data : String) :
    Except PyErr (List (String × Json)) :=
  let pos : List (String × Json) := [("posData", Json.str pos_data)]
  match dictGet bpOptions "verifyPos" with
  | none => .error (.keyError "verifyPos")
  | some vp =>
    if pyTruthy vp then
      match dictGet options "apiKey" with
      | some (Json.str ak) =>
        .ok (dictSet pos "hash" (Json.str (bpHash (pyStr (sanitize_dict (Json.str pos_data))) ak)))
      | some _ => .error (.typeError "expected a string api key")
      | none => .error (.keyError "apiKey")
    else .ok pos

/-- The field allow-list `post_options` (lines 155-157). -/
def postOptionsList : List String :=
  ["orderID", "itemDesc", "itemCode", "notificationEmail", "notificationURL", "redirectURL",
   "posData", "price", "currency", "physical", "fullNotifications", "transactionSpeed",
   "buyerName", "buyerAddress1", "buyerAddress2", "buyerCity", "buyerState", "buyerZip",
   "buyerEmail", "buyerPhone"]

/-- Lines 159-161: `for o in post_options: if o in options: pos[o] = options[o]`. -/
def copyPostOptions (options : Config) (pos : List (String × Json)) (keys : List String) :
    List (String × Json) :=
  keys.foldl
    (fun p o =>
      match dictGet options o with
      | some v => dictSet p o v
      | none => p)
    pos

/-- Outcome of `bpCreateInvoice` up to its `bpCurl` call: a validation error
dict returned before any network I/O, a raised exception, or the request
handed to `bpCurl` (body dict, its JSON serialization, the api key value).
The subsequent logging and the provider response lie beyond the network
boundary and outside the model. -/
inductive CreateInvoiceResult : Type where
  | errorDict (j : Json)
  | raised (e : PyErr)
  | request (url : String) (body : List (String × Json)) (bodyStr : String) (apiKey : Json)
  deriving Repr, DecidableEq

/-- `bpCreateInvoice(order_id, price, pos_data, options)` from `bp_lib.py`,
up to the network boundary.  A falsy `options` argument is replaced by an
empty dict; the caller options are merged over the global defaults
(`dict(bpOptions.items() + options.items())`); the posData envelope is built
and serialized into `options['posData']`; envelopes longer than 100
characters abort with an error dict; `orderID` and `price` are set; the
allow-listed fields are copied into the envelope dict `pos` itself (which
therefore keeps its leftover `hash` entry when verification is enabled); and
the serialized `pos` is posted to the invoice endpoint with
`options['apiKey']`. -/
def bpCreateInvoice (bpOptions : Config) (order_id price pos_data : String)
    (optionsArg : Option Config) : CreateInvoiceResult :=
  let options0 : Config :=
    match optionsArg with
    | none => []
    | some o => o
  let options1 := dictFromList (bpOptions ++ options0)
  match bpInvoiceEnvelope bpOptions options1 pos_data with
  | .error e => .raised e
  | .ok pos1 =>
    let envStr := Json.dumps (Json.obj pos1)
    let options2 := dictSet options1 "posData" (Json.str envStr)
    if 100 < envStr.length then
      .errorDict
        (Json.obj
          [("error", Json.str "posData > 100 character limit. Are you using the posData hash?")])
    else
      let options3 := dictSet (dictSet options2 "orderID" (Json.str order_id)) "price"
        (Json.str price)
      let body := copyPostOptions options3 pos1 postOptionsList
      let bodyStr := Json.dumps (Json.obj body)
      match dictGet options3 "apiKey" with
      | some ak => .request "https://bitpay.com/api/invoice/" body bodyStr ak
      | none => .raised (.keyError "apiKey")

/-- Line 200 and 202 of `bp_lib.py`: replace the outer `posData` field with
the envelope's inner `posData` value and return the payload. -/
def bpVerifyFinish (jd pos_data : Json) : Except PyErr Json :=
  match pyGetItem pos_data "posData" with
  | .error e => .error e
  | .ok inner => pySetItem jd "posData" inner

/-- `bpVerifyNotification(api_key, post)` from `bp_lib.py`.  A falsy
`api_key` argument falls back to the configured key; a falsy `post` returns
the string `'No post data'`; the payload is parsed (`ValueError` propagates);
a payload without a `posData` member returns `'no posData'`; the inner
envelope is parsed from the `posData` string; when the global `verifyPos`
option is truthy the envelope's claimed `hash` (a `KeyError` when absent) is
compared against the recomputed keyed hash of the sanitized inner `posData`
value — the inner value came out of `json.loads`, so sanitizing it applies
`str` to unicode strings and raises `UnicodeEncodeError` on any non-ASCII
content before the comparison — a mismatch returning
`'authentication failed (bad hash)'`; otherwise the outer `posData` field is
replaced by the inner merchant value and the payload object is returned. -/
def bpVerifyNotification (bpOptions : Config) (api_key : Json) (post : String) :
    Except PyErr Json :=
  let keyR : Except PyErr Json :=
    if pyTruthy api_key then .ok api_key
    else
      match dictGet bpOptions "apiKey" with
      | some v => .ok v
      | none => .error (.keyError "apiKey")
  match keyR with
  | .error e => .error e
  | .ok key =>
    if post = "" then .ok (Json.str "No post data")
    else
      match pyJsonLoads post with
      | .error e => .error e
      | .ok jd =>
        match pyContains jd "posData" with
        | .error e => .error e
        | .ok c =>
          if !c then .ok (Json.str "no posData")
          else
            match pyGetItem jd "posData" with
            | .error e => .error e
            | .ok (Json.str s) =>
              (match pyJsonLoads s with
              | .error e => .error e
              | .ok pos_data =>
                match dictGet bpOptions "verifyPos" with
                | none => .error (.keyError "verifyPos")
                | some vp =>
                  if pyTruthy vp then
                    match pyGetItem pos_data "hash" with
                    | .error e => .error e
                    | .ok h =>
                      match pyGetItem pos_data "posData" with
                      | .error e => .error e
                      | .ok inner =>
                        match sanitize_dict_u inner with
                        | .error e => .error e
                        | .ok sv =>
                          match key with
                          | Json.str ks =>
                            if h ≠ Json.str (bpHash (pyStr sv) ks) then
                              .ok (Json.str "authentication failed (bad hash)")
                            else bpVerifyFinish jd pos_data
                          | _ => .error (.typeError "expected a string api key")
                  else bpVerifyFinish jd pos_data)
            | .ok _ => .error (.typeError "expected string or buffer")

/-- The post-network tail of `bpGetInvoice` (lines 230-232): the provider
response obtained from `bpCurl` has its `posData` field parsed
(`response['posData'] = json.loads(response['posData'])`) and then replaced
by the parsed envelope's own `posData` member. -/
def bpGetInvoiceProcess (response : Json) : Except PyErr Json :=
  match pyGetItem response "posData" with
  | .error e => .error e
  | .ok (Json.str s) =>
    (match pyJsonLoads s with
    | .error e => .error e
    | .ok env =>
      match pySetItem response "posData" env with
      | .error e => .error e
      | .ok r1 =>
        match pyGetItem r1 "posData" with
        | .error e => .error e
        | .ok envRead =>
          match pyGetItem envRead "posData" with
          | .error e => .error e
          | .ok inner => pySetItem r1 "posData" inner)
  | .ok _ => .error (.typeError "expected string or buffer")

/-- `bpDecodeResponse(response)` from `bp_lib.py`: an error string for falsy
input, else `json.loads`. -/
def bpDecodeResponse (response : String) : Except PyErr Json :=
  if response = "" then .ok (Json.str "Error: decodeResponse expects a string parameter.")
  else pyJsonLoads response

example :
    bpCreateInvoice [("verifyPos", Json.bool false), ("apiKey", Json.str "k"),
        ("currency", Json.str "USD")] "order123" "10.00" "cust-ref-42" none =
      .request "https://bitpay.com/api/invoice/"
        [("posData", Json.str "\x7b\"posData\": \"cust-ref-42\"\x7d"),
         ("orderID", Json.str "order123"), ("price", Json.str "10.00"),
         ("currency", Json.str "USD")]
        (Json.dumps (Json.obj
          [("posData", Json.str "\x7b\"posData\": \"cust-ref-42\"\x7d"),
           ("orderID", Json.str "order123"), ("price", Json.str "10.00"),
           ("currency", Json.str "USD")]))
        (Json.str "k") := by decide

/-- A concrete notification payload: envelope for merchant value
`cust-ref-42` hashed with key `k` (the hash value is
`bpHash "cust-ref-42" "k"`), wrapped in an outer object. -/
def samplePost : String :=
  "\x7b\"id\": \"inv1\", \"posData\": \"\x7b\\\"posData\\\": \\\"cust-ref-42\\\", \\\"hash\\\": \\\"wotINi500lS5FHe3KOI9Pl3+3VtCr7t9YKW8+5Rfxiw=\\\"\x7d\"\x7d"

example : bpHash "cust-ref-42" "k" = "wotINi500lS5FHe3KOI9Pl3+3VtCr7t9YKW8+5Rfxiw=" := by
  decide

example :
    bpVerifyNotification [("verifyPos", Json.bool true), ("apiKey", Json.str "k")]
        (Json.str "k") samplePost =
      .ok (Json.obj [("id", Json.str "inv1"), ("posData", Json.str "cust-ref-42")]) := by decide

example :
    bpVerifyNotification [("verifyPos", Json.bool true), ("apiKey", Json.str "k")]
        (Json.str "WRONG") samplePost =
      .ok (Json.str "authentication failed (bad hash)") := by decide

/-! ## Supporting lemmas about dict operations -/

theorem dictGet_append (d1 d2 : List (String × Json)) (k : String) :
    dictGet (d1 ++ d2) k =
      match dictGet d1 k with
      | some v => some v
      | none => dictGet d2 k := by
  induction d1 with
  | nil => simp [dictGet]
  | cons p rest ih =>
      obtain ⟨a, w⟩ := p
      by_cases hak : a = k <;> simp [dictGet, hak, ih]

theorem dictGet_eq_none_of_not_mem (d : List (String × Json)) (k : String)
    (h : ¬k ∈ d.map Prod.fst) : dictGet d k = none := by
  induction d with
  | nil => rfl
  | cons p rest ih =>
      obtain ⟨a, w⟩ := p
      simp only [List.map, List.mem_cons] at h
      push_neg at h
      have : ¬a = k := fun hh => h.1 hh.symm
      simp [dictGet, this, ih h.2]

theorem dictGet_foldl_dictSet (l : List (String × Json)) :
    ∀ (d : List (String × Json)) (k : String),
      dictGet (l.foldl (fun acc p => dictSet acc p.1 p.2) d) k =
        match dictGet l.reverse k with
        | some v => some v
        | none => dictGet d k := by
  induction l with
  | nil => intro d k; simp [dictGet]
  | cons p l2 ih =>
      obtain ⟨a, v⟩ := p
      intro d k
      simp only [List.foldl_cons]
      rw [ih, List.reverse_cons, dictGet_append, dictGet_dictSet]
      by_cases hak : a = k
      · subst hak
        cases dictGet l2.reverse a <;> simp [dictGet]
      · cases dictGet l2.reverse k <;> simp [dictGet, hak]

theorem dictGet_dictFromList (l : List (String × Json)) (k : String) :
    dictGet (dictFromList l) k = dictGet l.reverse k := by
  rw [dictFromList, dictGet_foldl_dictSet]
  cases dictGet l.reverse k <;> simp [dictGet]

theorem dictGet_reverse_of_nodup (l : List (String × Json)) (h : (l.map Prod.fst).Nodup)
    (k : String) : dictGet l.reverse k = dictGet l k := by
  induction l with
  | nil => rfl
  | cons p rest ih =>
      obtain ⟨a, v⟩ := p
      simp only [List.map, List.nodup_cons] at h
      rw [List.reverse_cons, dictGet_append]
      by_cases hak : a = k
      · subst hak
        have hnone : dictGet rest.reverse a = none := by
          apply dictGet_eq_none_of_not_mem
          intro hmem
          exact h.1 (by simpa using hmem)
        rw [hnone]
        simp [dictGet]
      · rw [ih h.2]
        cases hres : dictGet rest k <;> simp [dictGet, hak, hres]

/-- Lookup after the allow-list copy loop: a key copied from `options` when it
is allow-listed and present there, otherwise whatever the envelope dict held. -/
theorem dictGet_copyPostOptions (options : Config) (keys : List String) :
    ∀ (pos : List (String × Json)) (k : String),
      dictGet (copyPostOptions options pos keys) k =
        if k ∈ keys ∧ (dictGet options k).isSome then dictGet options k
        else dictGet pos k := by
  induction keys with
  | nil => intro pos k; simp [copyPostOptions]
  | cons o rest ih =>
      intro pos k
      simp only [copyPostOptions, List.foldl_cons] at ih ⊢
      cases hopt : dictGet options o with
      | none =>
          rw [ih]
          by_cases hk : k = o
          · subst hk
            simp [hopt]
          · simp [List.mem_cons, hk]
      | some v =>
          rw [ih]
          by_cases hk : k = o
          · subst hk
            simp [hopt, dictGet_dictSet]
          · simp only [List.mem_cons, hk, false_or]
            by_cases hmem : k ∈ rest ∧ (dictGet options k).isSome
            · simp [hmem]
            · simp only [hmem, if_false]
              rw [dictGet_dictSet, if_neg (fun hh => hk hh.symm)]

/-! ## Claim theorems -/

/-- **C6.** `bpHash(data, key)` equals the base64 encoding of the
HMAC-SHA256 digest of `data` keyed by `key` with the trailing newline of
`b2a_base64` stripped, and it is a pure deterministic function: equal
`(data, key)` pairs give equal output. -/
theorem C6_bpHash_hmac_base64 (data key : String) :
    bpHash data key = base64Encode (hmacSha256 (strBytes key) (strBytes data)) ∧
    ∀ d2 k2 : String, data = d2 → key = k2 → bpHash data key = bpHash d2 k2 := by
  constructor
  · rw [bpHash, b2aBase64, String.data_append,
      show ("\n" : String).data = ['\n'] from rfl,
      show (base64Encode (hmacSha256 (strBytes key) (strBytes data))).data =
        base64EncodeList (hmacSha256 (strBytes key) (strBytes data)) from rfl,
      List.dropLast_concat]
    rfl
  · intro d2 k2 hd hk
    rw [hd, hk]

theorem C6_bpHash_hmac_base64_witness :
    bpHash "data" "key" = base64Encode (hmacSha256 (strBytes "key") (strBytes "data")) ∧
    bpHash "data" "key" = bpHash "data" "key" :=
  ⟨(C6_bpHash_hmac_base64 "data" "key").1,
   (C6_bpHash_hmac_base64 "data" "key").2 "data" "key" rfl rfl⟩

theorem pyStrip_eq_empty_of_all (s : String) (h : s.data.all pyIsSpace = true) :
    pyStrip s = "" := by
  have hd : s.data.dropWhile pyIsSpace = [] := by
    rw [List.dropWhile_eq_nil_iff]
    intro x hx
    exact List.all_eq_true.mp h x hx
  rw [pyStrip, hd]
  rfl

/-- **C5.** When the url or the api key is empty or whitespace-only, `bpCurl`
returns the structured error value `{"error": "url or apiKey were blank."}`
without issuing any request (the `errorDict` branch performs no I/O) and
without raising. -/
theorem C5_bpCurl_blank (url api_key : String) (post : Option String)
    (h : url.data.all pyIsSpace = true ∨ api_key.data.all pyIsSpace = true) :
    bpCurl url api_key post =
      CurlResult.errorDict (Json.obj [("error", Json.str "url or apiKey were blank.")]) := by
  rw [bpCurl]
  rcases h with h | h
  · rw [pyStrip_eq_empty_of_all url h]
    simp [pyTruthy]
  · rw [pyStrip_eq_empty_of_all api_key h]
    simp [pyTruthy]

theorem C5_bpCurl_blank_witness :
    (("  \t" : String).data.all pyIsSpace = true ∨ ("k" : String).data.all pyIsSpace = true) ∧
    bpCurl "  \t" "k" none =
      CurlResult.errorDict (Json.obj [("error", Json.str "url or apiKey were blank.")]) :=
  ⟨Or.inl (by decide), C5_bpCurl_blank "  \t" "k" none (Or.inl (by decide))⟩

/-- **C3.** When the serialized posData envelope (hash included when
verification is enabled) exceeds 100 characters, `bpCreateInvoice` returns
the descriptive error dict and performs no network request (the `errorDict`
outcome is produced before the `bpCurl` call). -/
theorem C3_oversized_posData (cfg opts : Config) (oid price pd : String)
    (pos1 : List (String × Json))
    (henv : bpInvoiceEnvelope cfg (dictFromList (cfg ++ opts)) pd = .ok pos1)
    (hlen : 100 < (Json.dumps (Json.obj pos1)).length) :
    bpCreateInvoice cfg oid price pd (some opts) =
      .errorDict (Json.obj [("error",
        Json.str "posData > 100 character limit. Are you using the posData hash?")]) := by
  rw [bpCreateInvoice]
  simp only [henv]
  rw [if_pos hlen]

theorem C3_oversized_posData_witness :
    (bpInvoiceEnvelope [("verifyPos", Json.bool false), ("apiKey", Json.str "k")]
        (dictFromList ([("verifyPos", Json.bool false), ("apiKey", Json.str "k")] ++ []))
        "aaaaaaaaaaaaaaaaaaaaaaaaaaaaaaaaaaaaaaaaaaaaaaaaaaaaaaaaaaaaaaaaaaaaaaaaaaaaaaaaaaaaaaaaaaaaaaaaaaa" =
      .ok [("posData", Json.str
        "aaaaaaaaaaaaaaaaaaaaaaaaaaaaaaaaaaaaaaaaaaaaaaaaaaaaaaaaaaaaaaaaaaaaaaaaaaaaaaaaaaaaaaaaaaaaaaaaaaa")]) ∧
    100 < (Json.dumps (Json.obj [("posData", Json.str
      "aaaaaaaaaaaaaaaaaaaaaaaaaaaaaaaaaaaaaaaaaaaaaaaaaaaaaaaaaaaaaaaaaaaaaaaaaaaaaaaaaaaaaaaaaaaaaaaaaaa")])).length ∧
    bpCreateInvoice [("verifyPos", Json.bool false), ("apiKey", Json.str "k")] "o" "1"
        "aaaaaaaaaaaaaaaaaaaaaaaaaaaaaaaaaaaaaaaaaaaaaaaaaaaaaaaaaaaaaaaaaaaaaaaaaaaaaaaaaaaaaaaaaaaaaaaaaaa"
        (some []) =
      .errorDict (Json.obj [("error",
        Json.str "posData > 100 character limit. Are you using the posData hash?")]) :=
  ⟨by decide, by decide,
   C3_oversized_posData [("verifyPos", Json.bool false), ("apiKey", Json.str "k")] [] "o" "1"
     "aaaaaaaaaaaaaaaaaaaaaaaaaaaaaaaaaaaaaaaaaaaaaaaaaaaaaaaaaaaaaaaaaaaaaaaaaaaaaaaaaaaaaaaaaaaaaaaaaaa"
     [("posData", Json.str
       "aaaaaaaaaaaaaaaaaaaaaaaaaaaaaaaaaaaaaaaaaaaaaaaaaaaaaaaaaaaaaaaaaaaaaaaaaaaaaaaaaaaaaaaaaaaaaaaaaaa")]
     (by decide) (by decide)⟩

/-- **C7.** `bpCreateInvoice("order123", "10.00", "cust-ref-42")` with
`verifyPos` disabled issues a request whose body carries
`orderID = "order123"`, `price = "10.00"`, and `posData` equal to the JSON
serialization of `{"posData": "cust-ref-42"}` (which contains no `hash`
key); the body itself also has no `hash` entry. -/
theorem C7_example_request (cfg : Config) (vp akv : Json)
    (hvp : dictGet cfg "verifyPos" = some vp) (hvpf : pyTruthy vp = false)
    (hak : dictGet (dictFromList (cfg ++ [])) "apiKey" = some akv) :
    ∃ body bodyStr,
      bpCreateInvoice cfg "order123" "10.00" "cust-ref-42" none =
        .request "https://bitpay.com/api/invoice/" body bodyStr akv ∧
      dictGet body "orderID" = some (Json.str "order123") ∧
      dictGet body "price" = some (Json.str "10.00") ∧
      dictGet body "posData" = some (Json.str "\x7b\"posData\": \"cust-ref-42\"\x7d") ∧
      Json.dumps (Json.obj [("posData", Json.str "cust-ref-42")]) =
        "\x7b\"posData\": \"cust-ref-42\"\x7d" ∧
      dictGet body "hash" = none := by
  have henvdump : Json.dumps (Json.obj [("posData", Json.str "cust-ref-42")]) =
      "\x7b\"posData\": \"cust-ref-42\"\x7d" := by decide
  have henv : bpInvoiceEnvelope cfg (dictFromList (cfg ++ [])) "cust-ref-42" =
      .ok [("posData", Json.str "cust-ref-42")] := by
    rw [bpInvoiceEnvelope, hvp]
    simp [hvpf]
  rw [bpCreateInvoice]
  simp only [henv, henvdump]
  rw [if_neg (by decide :
    ¬(100 < ("\x7b\"posData\": \"cust-ref-42\"\x7d" : String).length))]
  have hak3 : dictGet (dictSet (dictSet (dictSet (dictFromList (cfg ++ []))
      "posData" (Json.str "\x7b\"posData\": \"cust-ref-42\"\x7d"))
      "orderID" (Json.str "order123")) "price" (Json.str "10.00")) "apiKey" = some akv := by
    rw [dictGet_dictSet, if_neg (by decide), dictGet_dictSet, if_neg (by decide),
      dictGet_dictSet, if_neg (by decide), hak]
  simp only [hak3]
  refine ⟨_, _, rfl, ?_, ?_, ?_, trivial, ?_⟩
  · rw [dictGet_copyPostOptions]
    have hget : dictGet (dictSet (dictSet (dictSet (dictFromList (cfg ++ []))
        "posData" (Json.str "\x7b\"posData\": \"cust-ref-42\"\x7d"))
        "orderID" (Json.str "order123")) "price" (Json.str "10.00")) "orderID" =
        some (Json.str "order123") := by
      rw [dictGet_dictSet, if_neg (by decide), dictGet_dictSet, if_pos rfl]
    rw [if_pos ⟨by decide, by rw [hget]; rfl⟩, hget]
  · rw [dictGet_copyPostOptions]
    have hget : dictGet (dictSet (dictSet (dictSet (dictFromList (cfg ++ []))
        "posData" (Json.str "\x7b\"posData\": \"cust-ref-42\"\x7d"))
        "orderID" (Json.str "order123")) "price" (Json.str "10.00")) "price" =
        some (Json.str "10.00") := by
      rw [dictGet_dictSet, if_pos rfl]
    rw [if_pos ⟨by decide, by rw [hget]; rfl⟩, hget]
  · rw [dictGet_copyPostOptions]
    have hget : dictGet (dictSet (dictSet (dictSet (dictFromList (cfg ++ []))
        "posData" (Json.str "\x7b\"posData\": \"cust-ref-42\"\x7d"))
        "orderID" (Json.str "order123")) "price" (Json.str "10.00")) "posData" =
        some (Json.str "\x7b\"posData\": \"cust-ref-42\"\x7d") := by
      rw [dictGet_dictSet, if_neg (by decide), dictGet_dictSet, if_neg (by decide),
        dictGet_dictSet, if_pos rfl]
    rw [if_pos ⟨by decide, by rw [hget]; rfl⟩, hget]
  · rw [dictGet_copyPostOptions]
    rw [if_neg (fun hc => absurd hc.1 (by decide))]
    decide

theorem C7_example_request_witness :
    (dictGet [("verifyPos", Json.bool false), ("apiKey", Json.str "k")] "verifyPos" =
      some (Json.bool false)) ∧
    pyTruthy (Json.bool false) = false ∧
    (dictGet (dictFromList ([("verifyPos", Json.bool false), ("apiKey", Json.str "k")] ++ []))
      "apiKey" = some (Json.str "k")) ∧
    ∃ body bodyStr,
      bpCreateInvoice [("verifyPos", Json.bool false), ("apiKey", Json.str "k")]
          "order123" "10.00" "cust-ref-42" none =
        .request "https://bitpay.com/api/invoice/" body bodyStr (Json.str "k") ∧
      dictGet body "orderID" = some (Json.str "order123") ∧
      dictGet body "price" = some (Json.str "10.00") ∧
      dictGet body "posData" = some (Json.str "\x7b\"posData\": \"cust-ref-42\"\x7d") ∧
      Json.dumps (Json.obj [("posData", Json.str "cust-ref-42")]) =
        "\x7b\"posData\": \"cust-ref-42\"\x7d" ∧
      dictGet body "hash" = none :=
  ⟨by decide, by decide, by decide,
   C7_example_request [("verifyPos", Json.bool false), ("apiKey", Json.str "k")]
     (Json.bool false) (Json.str "k") (by decide) (by decide) (by decide)⟩

/-- Structure of the posData envelope `bpInvoiceEnvelope` builds: the bare
merchant field when `verifyPos` is falsy, or the merchant field plus the
keyed hash when it is truthy. -/
theorem bpInvoiceEnvelope_cases (cfg options : Config) (pd : String)
    (pos1 : List (String × Json)) (vp : Json)
    (hvp : dictGet cfg "verifyPos" = some vp)
    (h : bpInvoiceEnvelope cfg options pd = .ok pos1) :
    (pyTruthy vp = false ∧ pos1 = [("posData", Json.str pd)]) ∨
    (pyTruthy vp = true ∧ ∃ ak : String, dictGet options "apiKey" = some (Json.str ak) ∧
      pos1 = [("posData", Json.str pd), ("hash", Json.str (bpHash pd ak))]) := by
  rw [bpInvoiceEnvelope, hvp] at h
  simp only [] at h
  by_cases ht : pyTruthy vp = true
  · right
    rw [if_pos ht] at h
    cases hak : dictGet options "apiKey" with
    | none => rw [hak] at h; simp only [] at h; exact absurd h (by simp)
    | some v =>
        rw [hak] at h
        cases v with
        | str ak =>
            simp only [] at h
            refine ⟨ht, ak, rfl, ?_⟩
            simp only [sanitize_dict, pyStr, dictSet] at h
            rw [if_neg (by decide)] at h
            simpa [dictSet] using h.symm
        | num n => simp only [] at h; exact absurd h (by simp)
        | bool b => simp only [] at h; exact absurd h (by simp)
        | null => simp only [] at h; exact absurd h (by simp)
        | arr xs => simp only [] at h; exact absurd h (by simp)
        | obj fs => simp only [] at h; exact absurd h (by simp)
  · left
    rw [if_neg ht] at h
    exact ⟨by simpa using ht, by simpa using h.symm⟩

/-- **C2 (amended).** Whenever `bpCreateInvoice` issues a request, the body
carries `orderID` and `price` from the call arguments and `posData` as the
serialized envelope; every other allow-listed field present in the merged
options is copied with the caller's value taking precedence over the
configured default; no key outside the allow-list occurs in the body
*except* the leftover top-level `hash` entry, which is present exactly when
`verifyPos` is enabled (the body dict is the reused envelope dict). -/
theorem C2_request_fields (cfg opts : Config) (oid price pd : String) (vp : Json)
    (hnodc : (cfg.map Prod.fst).Nodup) (hnodo : (opts.map Prod.fst).Nodup)
    (hvp : dictGet cfg "verifyPos" = some vp)
    (body : List (String × Json)) (bodyStr : String) (akv : Json)
    (hreq : bpCreateInvoice cfg oid price pd (some opts) =
      .request "https://bitpay.com/api/invoice/" body bodyStr akv) :
    dictGet body "orderID" = some (Json.str oid) ∧
    dictGet body "price" = some (Json.str price) ∧
    (∃ pos1, bpInvoiceEnvelope cfg (dictFromList (cfg ++ opts)) pd = .ok pos1 ∧
      dictGet body "posData" = some (Json.str (Json.dumps (Json.obj pos1))) ∧
      (if pyTruthy vp then ∃ hv, dictGet body "hash" = some hv
       else dictGet body "hash" = none)) ∧
    (∀ o, o ∈ postOptionsList → ¬o ∈ (["orderID", "price", "posData"] : List String) →
      dictGet body o =
        match dictGet opts o with
        | some v => some v
        | none => dictGet cfg o) ∧
    (∀ k2, ¬k2 ∈ postOptionsList → k2 ≠ "hash" → dictGet body k2 = none) := by
  cases henv : bpInvoiceEnvelope cfg (dictFromList (cfg ++ opts)) pd with
  | error e =>
      rw [bpCreateInvoice] at hreq
      simp only [henv] at hreq
      exact absurd hreq (by simp)
  | ok pos1 =>
      rw [bpCreateInvoice] at hreq
      simp only [henv] at hreq
      by_cases hlen : 100 < (Json.dumps (Json.obj pos1)).length
      · rw [if_pos hlen] at hreq
        exact absurd hreq (by simp)
      · rw [if_neg hlen] at hreq
        cases hak : dictGet (dictSet (dictSet (dictSet (dictFromList (cfg ++ opts))
            "posData" (Json.str (Json.dumps (Json.obj pos1)))) "orderID" (Json.str oid))
            "price" (Json.str price)) "apiKey" with
        | none => rw [hak] at hreq; exact absurd hreq (by simp)
        | some ak =>
            rw [hak] at hreq
            have hbody : body = copyPostOptions
                (dictSet (dictSet (dictSet (dictFromList (cfg ++ opts))
                  "posData" (Json.str (Json.dumps (Json.obj pos1)))) "orderID" (Json.str oid))
                  "price" (Json.str price)) pos1 postOptionsList := by
              have := hreq
              simp only [CreateInvoiceResult.request.injEq] at this
              exact this.2.1.symm
            set options3 := dictSet (dictSet (dictSet (dictFromList (cfg ++ opts))
              "posData" (Json.str (Json.dumps (Json.obj pos1)))) "orderID" (Json.str oid))
              "price" (Json.str price) with hopt3
            have hget3 : ∀ k2 : String, ¬k2 = "price" → ¬k2 = "orderID" → ¬k2 = "posData" →
                dictGet options3 k2 = dictGet (dictFromList (cfg ++ opts)) k2 := by
              intro k2 h1 h2 h3
              rw [hopt3, dictGet_dictSet, if_neg (fun hh => h1 hh.symm),
                dictGet_dictSet, if_neg (fun hh => h2 hh.symm),
                dictGet_dictSet, if_neg (fun hh => h3 hh.symm)]
            have hmerge : ∀ k2 : String, dictGet (dictFromList (cfg ++ opts)) k2 =
                match dictGet opts k2 with
                | some v => some v
                | none => dictGet cfg k2 := by
              intro k2
              rw [dictGet_dictFromList, List.reverse_append, dictGet_append,
                dictGet_reverse_of_nodup _ hnodo, dictGet_reverse_of_nodup _ hnodc]
            have hposkeys := bpInvoiceEnvelope_cases cfg (dictFromList (cfg ++ opts)) pd
              pos1 vp hvp henv
            refine ⟨?_, ?_, ⟨pos1, rfl, ?_, ?_⟩, ?_, ?_⟩
            · rw [hbody, dictGet_copyPostOptions]
              have hg : dictGet options3 "orderID" = some (Json.str oid) := by
                rw [hopt3, dictGet_dictSet, if_neg (by decide), dictGet_dictSet, if_pos rfl]
              rw [if_pos ⟨by decide, by rw [hg]; rfl⟩, hg]
            · rw [hbody, dictGet_copyPostOptions]
              have hg : dictGet options3 "price" = some (Json.str price) := by
                rw [hopt3, dictGet_dictSet, if_pos rfl]
              rw [if_pos ⟨by decide, by rw [hg]; rfl⟩, hg]
            · rw [hbody, dictGet_copyPostOptions]
              have hg : dictGet options3 "posData" =
                  some (Json.str (Json.dumps (Json.obj pos1))) := by
                rw [hopt3, dictGet_dictSet, if_neg (by decide), dictGet_dictSet,
                  if_neg (by decide), dictGet_dictSet, if_pos rfl]
              rw [if_pos ⟨by decide, by rw [hg]; rfl⟩, hg]
            · rcases hposkeys with ⟨hf, hpos⟩ | ⟨ht, ak2, hak2, hpos⟩
              · simp only [hf, Bool.false_eq_true, if_false]
                rw [hbody, dictGet_copyPostOptions,
                  if_neg (fun hc => absurd hc.1 (by decide)), hpos]
                simp [dictGet]
              · simp only [ht, if_true]
                rw [hbody, dictGet_copyPostOptions,
                  if_neg (fun hc => absurd hc.1 (by decide)), hpos]
                exact ⟨Json.str (bpHash pd ak2), by simp [dictGet]⟩
            · intro o hmem hnotkey
              have h1 : ¬o = "price" := fun hh => hnotkey (by simp [hh])
              have h2 : ¬o = "orderID" := fun hh => hnotkey (by simp [hh])
              have h3 : ¬o = "posData" := fun hh => hnotkey (by simp [hh])
              have h4 : ¬o = "hash" := by
                intro hh
                subst hh
                exact absurd hmem (by decide)
              rw [hbody, dictGet_copyPostOptions]
              by_cases hs : (dictGet options3 o).isSome = true
              · rw [if_pos ⟨hmem, hs⟩, hget3 o h1 h2 h3, hmerge o]
              · rw [if_neg (fun hc => hs hc.2)]
                have hnone3 : dictGet options3 o = none := by
                  cases hh : dictGet options3 o with
                  | none => rfl
                  | some v => rw [hh] at hs; exact absurd rfl hs
                have hmn : (match dictGet opts o with
                    | some v => some v
                    | none => dictGet cfg o) = none := by
                  rw [← hmerge o, ← hget3 o h1 h2 h3, hnone3]
                rw [hmn]
                have h3s : ¬("posData" : String) = o := fun hh => h3 hh.symm
                have h4s : ¬("hash" : String) = o := fun hh => h4 hh.symm
                rcases hposkeys with ⟨hf, hpos⟩ | ⟨ht, ak2, hak2, hpos⟩ <;>
                  · rw [hpos]
                    simp [dictGet, h3s, h4s]
            · intro k2 hnmem hnhash
              have h3 : ¬k2 = "posData" := by
                intro hh
                subst hh
                exact absurd (by decide : ("posData" : String) ∈ postOptionsList) hnmem
              have h3s : ¬("posData" : String) = k2 := fun hh => h3 hh.symm
              have hns : ¬("hash" : String) = k2 := fun hh => hnhash hh.symm
              rw [hbody, dictGet_copyPostOptions, if_neg (fun hc => hnmem hc.1)]
              rcases hposkeys with ⟨hf, hpos⟩ | ⟨ht, ak2, hak2, hpos⟩ <;>
                · rw [hpos]
                  simp [dictGet, h3s, hns]

/-- The body of the request a `CreateInvoiceResult` carries, when one was
issued. -/
def createInvoiceBody : CreateInvoiceResult → Option (List (String × Json))
  | .request _ body _ _ => some body
  | _ => none

/-- **C2 counterexample.** The claim as stated is false: with `verifyPos`
enabled, `bpCreateInvoice` issues a request whose body contains the
top-level key `hash`, which is not in the allow-list — the body dict is the
reused posData envelope dict and keeps its `hash` entry. -/
theorem C2_counterexample :
    (createInvoiceBody (bpCreateInvoice
        [("verifyPos", Json.bool true), ("apiKey", Json.str "k")] "o1" "1.00" "x" none)).map
      (fun b => (dictGet b "hash").isSome) = some true ∧
    ¬("hash" : String) ∈ postOptionsList := by
  constructor
  · decide
  · decide

theorem C2_request_fields_witness :
    ((([("verifyPos", Json.bool false), ("apiKey", Json.str "k")] : Config).map
      Prod.fst).Nodup) ∧
    ((([("currency", Json.str "USD")] : Config).map Prod.fst).Nodup) ∧
    (dictGet [("verifyPos", Json.bool false), ("apiKey", Json.str "k")] "verifyPos" =
      some (Json.bool false)) ∧
    (bpCreateInvoice [("verifyPos", Json.bool false), ("apiKey", Json.str "k")] "o" "1" "x"
        (some [("currency", Json.str "USD")]) =
      .request "https://bitpay.com/api/invoice/"
        [("posData", Json.str "\x7b\"posData\": \"x\"\x7d"), ("orderID", Json.str "o"),
         ("price", Json.str "1"), ("currency", Json.str "USD")]
        "\x7b\"posData\": \"\x7b\\\"posData\\\": \\\"x\\\"\x7d\", \"orderID\": \"o\", \"price\": \"1\", \"currency\": \"USD\"\x7d" (Json.str "k")) ∧
    (dictGet [("posData", Json.str "\x7b\"posData\": \"x\"\x7d"), ("orderID", Json.str "o"),
        ("price", Json.str "1"), ("currency", Json.str "USD")] "orderID" =
      some (Json.str "o") ∧
    dictGet [("posData", Json.str "\x7b\"posData\": \"x\"\x7d"), ("orderID", Json.str "o"),
        ("price", Json.str "1"), ("currency", Json.str "USD")] "price" =
      some (Json.str "1") ∧
    (∃ pos1, bpInvoiceEnvelope [("verifyPos", Json.bool false), ("apiKey", Json.str "k")]
        (dictFromList ([("verifyPos", Json.bool false), ("apiKey", Json.str "k")] ++
          [("currency", Json.str "USD")])) "x" = .ok pos1 ∧
      dictGet [("posData", Json.str "\x7b\"posData\": \"x\"\x7d"), ("orderID", Json.str "o"),
          ("price", Json.str "1"), ("currency", Json.str "USD")] "posData" =
        some (Json.str (Json.dumps (Json.obj pos1))) ∧
      (if pyTruthy (Json.bool false) then
        ∃ hv, dictGet [("posData", Json.str "\x7b\"posData\": \"x\"\x7d"), ("orderID", Json.str "o"),
          ("price", Json.str "1"), ("currency", Json.str "USD")] "hash" = some hv
       else dictGet [("posData", Json.str "\x7b\"posData\": \"x\"\x7d"), ("orderID", Json.str "o"),
          ("price", Json.str "1"), ("currency", Json.str "USD")] "hash" = none)) ∧
    (∀ o, o ∈ postOptionsList → ¬o ∈ (["orderID", "price", "posData"] : List String) →
      dictGet [("posData", Json.str "\x7b\"posData\": \"x\"\x7d"), ("orderID", Json.str "o"),
          ("price", Json.str "1"), ("currency", Json.str "USD")] o =
        match dictGet [("currency", Json.str "USD")] o with
        | some v => some v
        | none => dictGet [("verifyPos", Json.bool false), ("apiKey", Json.str "k")] o) ∧
    (∀ k2, ¬k2 ∈ postOptionsList → k2 ≠ "hash" →
      dictGet [("posData", Json.str "\x7b\"posData\": \"x\"\x7d"), ("orderID", Json.str "o"),
          ("price", Json.str "1"), ("currency", Json.str "USD")] k2 = none)) :=
  ⟨by decide, by decide, by decide, by decide,
   C2_request_fields [("verifyPos", Json.bool false), ("apiKey", Json.str "k")]
     [("currency", Json.str "USD")] "o" "1" "x" (Json.bool false) (by decide) (by decide)
     (by decide)
     [("posData", Json.str "\x7b\"posData\": \"x\"\x7d"), ("orderID", Json.str "o"),
      ("price", Json.str "1"), ("currency", Json.str "USD")]
     "\x7b\"posData\": \"\x7b\\\"posData\\\": \\\"x\\\"\x7d\", \"orderID\": \"o\", \"price\": \"1\", \"currency\": \"USD\"\x7d" (Json.str "k") (by decide)⟩

/-- **C4.** For a provider response whose `posData` field is a JSON-encoded
envelope with an inner `posData` member, `bpGetInvoice`'s post-processing
returns the response with `posData` replaced by the envelope's inner value
and every other key unchanged. -/
theorem C4_getInvoice_unwrap (flds : List (String × Json)) (s : String) (env v : Json)
    (hpd : dictGet flds "posData" = some (Json.str s))
    (hload : pyJsonLoads s = .ok env)
    (hinner : pyGetItem env "posData" = .ok v) :
    bpGetInvoiceProcess (Json.obj flds) = .ok (Json.obj (dictSet flds "posData" v)) ∧
    ∀ k2, ¬k2 = "posData" →
      dictGet (dictSet flds "posData" v) k2 = dictGet flds k2 := by
  constructor
  · have h1 : pyGetItem (Json.obj flds) "posData" = .ok (Json.str s) := by
      simp [pyGetItem, hpd]
    have h2 : pyGetItem (Json.obj (dictSet flds "posData" env)) "posData" = .ok env := by
      simp [pyGetItem, dictGet_dictSet]
    rw [bpGetInvoiceProcess, h1]
    simp only [hload, pySetItem, h2, hinner, dictSet_dictSet_same]
  · intro k2 hk2
    rw [dictGet_dictSet, if_neg (fun hh => hk2 hh.symm)]

theorem C4_getInvoice_unwrap_witness :
    (dictGet [("id", Json.str "i1"), ("posData", Json.str "\x7b\"posData\": \"x\"\x7d"),
        ("status", Json.str "new")] "posData" =
      some (Json.str "\x7b\"posData\": \"x\"\x7d")) ∧
    (pyJsonLoads "\x7b\"posData\": \"x\"\x7d" = .ok (Json.obj [("posData", Json.str "x")])) ∧
    (pyGetItem (Json.obj [("posData", Json.str "x")]) "posData" = .ok (Json.str "x")) ∧
    (bpGetInvoiceProcess (Json.obj [("id", Json.str "i1"),
        ("posData", Json.str "\x7b\"posData\": \"x\"\x7d"), ("status", Json.str "new")]) =
      .ok (Json.obj (dictSet [("id", Json.str "i1"),
        ("posData", Json.str "\x7b\"posData\": \"x\"\x7d"), ("status", Json.str "new")]
        "posData" (Json.str "x"))) ∧
    ∀ k2, ¬k2 = "posData" →
      dictGet (dictSet [("id", Json.str "i1"),
        ("posData", Json.str "\x7b\"posData\": \"x\"\x7d"), ("status", Json.str "new")]
        "posData" (Json.str "x")) k2 =
      dictGet [("id", Json.str "i1"), ("posData", Json.str "\x7b\"posData\": \"x\"\x7d"),
        ("status", Json.str "new")] k2) :=
  ⟨by decide, by decide, by decide,
   C4_getInvoice_unwrap [("id", Json.str "i1"),
     ("posData", Json.str "\x7b\"posData\": \"x\"\x7d"), ("status", Json.str "new")]
     "\x7b\"posData\": \"x\"\x7d" (Json.obj [("posData", Json.str "x")]) (Json.str "x")
     (by decide) (by decide) (by decide)⟩

/-- **C9.** With verification enabled, a notification whose envelope lacks a
`hash` member makes `bpVerifyNotification` raise `KeyError` (a lookup
error), rather than returning an error string or a result value. -/
theorem C9_missing_hash_raises (cfg : Config) (vp : Json) (k : String) (post s : String)
    (flds eflds : List (String × Json))
    (hk : ¬k = "")
    (hvp : dictGet cfg "verifyPos" = some vp) (hvpt : pyTruthy vp = true)
    (hpost : pyJsonLoads post = .ok (Json.obj flds))
    (hpd : dictGet flds "posData" = some (Json.str s))
    (henv : pyJsonLoads s = .ok (Json.obj eflds))
    (hnohash : dictGet eflds "hash" = none) :
    bpVerifyNotification cfg (Json.str k) post = .error (PyErr.keyError "hash") := by
  have hkt : pyTruthy (Json.str k) = true := by simp [pyTruthy, hk]
  have hpostne : ¬post = "" := by
    intro he
    rw [he] at hpost
    rw [show pyJsonLoads "" = Except.error (PyErr.valueError "No JSON object could be decoded")
      from by decide] at hpost
    exact absurd hpost (by simp)
  rw [bpVerifyNotification]
  simp only [hkt, eq_self_iff_true, if_true, if_neg hpostne, hpost, pyContains, hpd,
    Option.isSome_some, Bool.not_true, Bool.false_eq_true, if_false, pyGetItem, henv, hvp,
    hvpt, hnohash]

/-- **C10.** With verification disabled, `bpVerifyNotification` performs no
hash comparison: any payload whose envelope parses and has an inner
`posData` member is returned with the outer `posData` replaced by the inner
value, regardless of the envelope's `hash` field. -/
theorem C10_no_verification (cfg : Config) (vp : Json) (k : String) (post s : String)
    (flds eflds : List (String × Json)) (v : Json)
    (hk : ¬k = "")
    (hvp : dictGet cfg "verifyPos" = some vp) (hvpf : pyTruthy vp = false)
    (hpost : pyJsonLoads post = .ok (Json.obj flds))
    (hpd : dictGet flds "posData" = some (Json.str s))
    (henv : pyJsonLoads s = .ok (Json.obj eflds))
    (hinner : dictGet eflds "posData" = some v) :
    bpVerifyNotification cfg (Json.str k) post =
      .ok (Json.obj (dictSet flds "posData" v)) := by
  have hkt : pyTruthy (Json.str k) = true := by simp [pyTruthy, hk]
  have hpostne : ¬post = "" := by
    intro he
    rw [he] at hpost
    rw [show pyJsonLoads "" = Except.error (PyErr.valueError "No JSON object could be decoded")
      from by decide] at hpost
    exact absurd hpost (by simp)
  rw [bpVerifyNotification]
  simp only [hkt, eq_self_iff_true, if_true, if_neg hpostne, hpost, pyContains, hpd,
    Option.isSome_some, Bool.not_true, Bool.false_eq_true, if_false, pyGetItem, henv, hvp,
    hvpf, bpVerifyFinish, hinner, pySetItem]

theorem C9_missing_hash_raises_witness :
    (¬("k" : String) = "") ∧
    (dictGet [("verifyPos", Json.bool true), ("apiKey", Json.str "k")] "verifyPos" =
      some (Json.bool true)) ∧
    pyTruthy (Json.bool true) = true ∧
    (pyJsonLoads "\x7b\"id\": \"n1\", \"posData\": \"\x7b\\\"posData\\\": \\\"x\\\"\x7d\"\x7d" =
      .ok (Json.obj [("id", Json.str "n1"), ("posData", Json.str "\x7b\"posData\": \"x\"\x7d")])) ∧
    (dictGet [("id", Json.str "n1"), ("posData", Json.str "\x7b\"posData\": \"x\"\x7d")] "posData" =
      some (Json.str "\x7b\"posData\": \"x\"\x7d")) ∧
    (pyJsonLoads "\x7b\"posData\": \"x\"\x7d" = .ok (Json.obj [("posData", Json.str "x")])) ∧
    (dictGet [("posData", Json.str "x")] "hash" = none) ∧
    bpVerifyNotification [("verifyPos", Json.bool true), ("apiKey", Json.str "k")]
        (Json.str "k") "\x7b\"id\": \"n1\", \"posData\": \"\x7b\\\"posData\\\": \\\"x\\\"\x7d\"\x7d" =
      .error (PyErr.keyError "hash") :=
  ⟨by decide, by decide, by decide, by decide, by decide, by decide, by decide,
   C9_missing_hash_raises [("verifyPos", Json.bool true), ("apiKey", Json.str "k")]
     (Json.bool true) "k" "\x7b\"id\": \"n1\", \"posData\": \"\x7b\\\"posData\\\": \\\"x\\\"\x7d\"\x7d" "\x7b\"posData\": \"x\"\x7d"
     [("id", Json.str "n1"), ("posData", Json.str "\x7b\"posData\": \"x\"\x7d")]
     [("posData", Json.str "x")]
     (by decide) (by decide) (by decide) (by decide) (by decide) (by decide) (by decide)⟩

theorem C10_no_verification_witness :
    (¬("k" : String) = "") ∧
    (dictGet [("verifyPos", Json.bool false), ("apiKey", Json.str "k")] "verifyPos" =
      some (Json.bool false)) ∧
    pyTruthy (Json.bool false) = false ∧
    (pyJsonLoads "\x7b\"id\": \"n1\", \"posData\": \"\x7b\\\"posData\\\": \\\"x\\\", \\\"hash\\\": \\\"WRONG\\\"\x7d\"\x7d" =
      .ok (Json.obj [("id", Json.str "n1"), ("posData", Json.str "\x7b\"posData\": \"x\", \"hash\": \"WRONG\"\x7d")])) ∧
    (dictGet [("id", Json.str "n1"), ("posData", Json.str "\x7b\"posData\": \"x\", \"hash\": \"WRONG\"\x7d")] "posData" =
      some (Json.str "\x7b\"posData\": \"x\", \"hash\": \"WRONG\"\x7d")) ∧
    (pyJsonLoads "\x7b\"posData\": \"x\", \"hash\": \"WRONG\"\x7d" =
      .ok (Json.obj [("posData", Json.str "x"), ("hash", Json.str "WRONG")])) ∧
    (dictGet [("posData", Json.str "x"), ("hash", Json.str "WRONG")] "posData" =
      some (Json.str "x")) ∧
    bpVerifyNotification [("verifyPos", Json.bool false), ("apiKey", Json.str "k")]
        (Json.str "k") "\x7b\"id\": \"n1\", \"posData\": \"\x7b\\\"posData\\\": \\\"x\\\", \\\"hash\\\": \\\"WRONG\\\"\x7d\"\x7d" =
      .ok (Json.obj (dictSet [("id", Json.str "n1"), ("posData", Json.str "\x7b\"posData\": \"x\", \"hash\": \"WRONG\"\x7d")]
        "posData" (Json.str "x"))) :=
  ⟨by decide, by decide, by decide, by decide, by decide, by decide, by decide,
   C10_no_verification [("verifyPos", Json.bool false), ("apiKey", Json.str "k")]
     (Json.bool false) "k" "\x7b\"id\": \"n1\", \"posData\": \"\x7b\\\"posData\\\": \\\"x\\\", \\\"hash\\\": \\\"WRONG\\\"\x7d\"\x7d" "\x7b\"posData\": \"x\", \"hash\": \"WRONG\"\x7d"
     [("id", Json.str "n1"), ("posData", Json.str "\x7b\"posData\": \"x\", \"hash\": \"WRONG\"\x7d")]
     [("posData", Json.str "x"), ("hash", Json.str "WRONG")] (Json.str "x")
     (by decide) (by decide) (by decide) (by decide) (by decide) (by decide) (by decide)⟩

/-- Reduction of `bpVerifyNotification` with verification enabled on a
payload whose `posData` field is the serialized two-field envelope: the
result is the unwrapped payload when the claimed hash equals the recomputed
keyed hash, and the authentication-failure string otherwise. -/
theorem bpVerify_env_reduce (cfg : Config) (vp : Json) (kk xx hv : String) (post : String)
    (flds : List (String × Json))
    (hkk : ¬kk = "")
    (hxx : xx.data.all (fun c => c.toNat < 128) = true)
    (hvp : dictGet cfg "verifyPos" = some vp) (hvpt : pyTruthy vp = true)
    (hpost : pyJsonLoads post = .ok (Json.obj flds))
    (hpd : dictGet flds "posData" = some (Json.str (Json.dumps (Json.obj
      [("posData", Json.str xx), ("hash", Json.str hv)])))) :
    bpVerifyNotification cfg (Json.str kk) post =
      if hv = bpHash xx kk then .ok (Json.obj (dictSet flds "posData" (Json.str xx)))
      else .ok (Json.str "authentication failed (bad hash)") := by
  have hkt : pyTruthy (Json.str kk) = true := by simp [pyTruthy, hkk]
  have hpostne : ¬post = "" := by
    intro he
    rw [he] at hpost
    rw [show pyJsonLoads "" = Except.error (PyErr.valueError "No JSON object could be decoded")
      from by decide] at hpost
    exact absurd hpost (by simp)
  have henv := pyJsonLoads_envelope xx hv
  have hcont : pyContains (Json.obj flds) "posData" = .ok true := by
    simp [pyContains, hpd]
  have hgetfld : pyGetItem (Json.obj flds) "posData" = .ok (Json.str (Json.dumps (Json.obj
      [("posData", Json.str xx), ("hash", Json.str hv)]))) := by
    simp [pyGetItem, hpd]
  have hgethash : pyGetItem (Json.obj [("posData", Json.str xx), ("hash", Json.str hv)])
      "hash" = .ok (Json.str hv) := by
    simp [pyGetItem, dictGet]
  have hgetpos : pyGetItem (Json.obj [("posData", Json.str xx), ("hash", Json.str hv)])
      "posData" = .ok (Json.str xx) := by
    simp [pyGetItem, dictGet]
  have hsan : sanitize_dict_u (Json.str xx) = .ok (Json.str xx) := by
    simp [sanitize_dict_u, py2StrUnicode, hxx]
  rw [bpVerifyNotification]
  simp only [hkt, eq_self_iff_true, if_true, if_neg hpostne, hpost, hcont, Bool.not_true,
    Bool.false_eq_true, if_false, hgetfld, henv, hvp, hvpt, hgethash, hgetpos, hsan,
    pyStr, bpVerifyFinish, pySetItem]
  by_cases hcmp : hv = bpHash xx kk
  · rw [if_neg (show ¬(Json.str hv ≠ Json.str (bpHash xx kk)) from fun hc =>
      hc (by rw [hcmp])), if_pos hcmp]
  · rw [if_pos (show Json.str hv ≠ Json.str (bpHash xx kk) from fun he =>
      hcmp (by injection he)), if_neg hcmp]

/-- **C1 (amended).** The round-trip property holds for ASCII merchant
values: with verification enabled, a notification payload whose outer
`posData` field is the JSON serialization of the envelope
`{posData: x, hash: bpHash(str(sanitize_dict(x)), k)}`, for an all-ASCII
`x`, verifies under the same key `k`, returning the parsed payload with
`posData` replaced by the merchant value `x`; under a different key whose
recomputed hash differs (collision freeness of HMAC-SHA256, discharged
concretely in the witness), or with the envelope's `posData` tampered to
another ASCII value while the hash is left unchanged, it returns the string
`'authentication failed (bad hash)'` — in every such case a returned value,
not a raised exception.  The ASCII restriction is necessary: the values
`json.loads` yields are unicode, so the `str` inside
`str(sanitize_dict(pos_data['posData']))` at line 197 raises
`UnicodeEncodeError` on any non-ASCII merchant value (the refutation of the
unrestricted claim). -/
theorem C1_verify_roundtrip (cfg : Config) (vp : Json) (k x : String) (post : String)
    (flds : List (String × Json))
    (hk : ¬k = "")
    (hx : x.data.all (fun c => c.toNat < 128) = true)
    (hvp : dictGet cfg "verifyPos" = some vp) (hvpt : pyTruthy vp = true)
    (hpost : pyJsonLoads post = .ok (Json.obj flds))
    (hpd : dictGet flds "posData" = some (Json.str (Json.dumps (Json.obj
      [("posData", Json.str x), ("hash", Json.str (bpHash x k))])))) :
    bpVerifyNotification cfg (Json.str k) post =
      .ok (Json.obj (dictSet flds "posData" (Json.str x))) ∧
    (∀ k2 : String, ¬k2 = "" → bpHash x k2 ≠ bpHash x k →
      bpVerifyNotification cfg (Json.str k2) post =
        .ok (Json.str "authentication failed (bad hash)")) ∧
    (∀ (x2 post2 : String) (flds2 : List (String × Json)),
      x2.data.all (fun c => c.toNat < 128) = true →
      pyJsonLoads post2 = .ok (Json.obj flds2) →
      dictGet flds2 "posData" = some (Json.str (Json.dumps (Json.obj
        [("posData", Json.str x2), ("hash", Json.str (bpHash x k))]))) →
      bpHash x2 k ≠ bpHash x k →
      bpVerifyNotification cfg (Json.str k) post2 =
        .ok (Json.str "authentication failed (bad hash)")) := by
  refine ⟨?_, ?_, ?_⟩
  · rw [bpVerify_env_reduce cfg vp k x (bpHash x k) post flds hk hx hvp hvpt hpost hpd,
      if_pos rfl]
  · intro k2 hk2 hneq
    rw [bpVerify_env_reduce cfg vp k2 x (bpHash x k) post flds hk2 hx hvp hvpt hpost hpd,
      if_neg (fun hh => hneq hh.symm)]
  · intro x2 post2 flds2 hx2 hpost2 hpd2 hneq
    rw [bpVerify_env_reduce cfg vp k x2 (bpHash x k) post2 flds2 hk hx2 hvp hvpt hpost2 hpd2,
      if_neg (fun hh => hneq hh.symm)]

theorem C1_verify_roundtrip_witness :
    (¬("k" : String) = "") ∧
    ("cust-ref-42".data.all (fun c => c.toNat < 128) = true) ∧
    (dictGet [("verifyPos", Json.bool true), ("apiKey", Json.str "k")] "verifyPos" =
      some (Json.bool true)) ∧
    pyTruthy (Json.bool true) = true ∧
    (pyJsonLoads samplePost =
      .ok (Json.obj [("id", Json.str "inv1"), ("posData", Json.str "\x7b\"posData\": \"cust-ref-42\", \"hash\": \"wotINi500lS5FHe3KOI9Pl3+3VtCr7t9YKW8+5Rfxiw=\"\x7d")])) ∧
    (dictGet [("id", Json.str "inv1"), ("posData", Json.str "\x7b\"posData\": \"cust-ref-42\", \"hash\": \"wotINi500lS5FHe3KOI9Pl3+3VtCr7t9YKW8+5Rfxiw=\"\x7d")] "posData" =
      some (Json.str (Json.dumps (Json.obj [("posData", Json.str "cust-ref-42"),
        ("hash", Json.str (bpHash "cust-ref-42" "k"))])))) ∧
    (bpVerifyNotification [("verifyPos", Json.bool true), ("apiKey", Json.str "k")]
        (Json.str "k") samplePost =
      .ok (Json.obj (dictSet [("id", Json.str "inv1"), ("posData", Json.str "\x7b\"posData\": \"cust-ref-42\", \"hash\": \"wotINi500lS5FHe3KOI9Pl3+3VtCr7t9YKW8+5Rfxiw=\"\x7d")]
        "posData" (Json.str "cust-ref-42")))) ∧
    (bpVerifyNotification [("verifyPos", Json.bool true), ("apiKey", Json.str "k")]
        (Json.str "WRONG") samplePost =
      .ok (Json.str "authentication failed (bad hash)")) ∧
    (bpVerifyNotification [("verifyPos", Json.bool true), ("apiKey", Json.str "k")]
        (Json.str "k") "\x7b\"id\": \"inv1\", \"posData\": \"\x7b\\\"posData\\\": \\\"tampered\\\", \\\"hash\\\": \\\"wotINi500lS5FHe3KOI9Pl3+3VtCr7t9YKW8+5Rfxiw=\\\"\x7d\"\x7d" =
      .ok (Json.str "authentication failed (bad hash)")) :=
  ⟨by decide, by decide, by decide, by decide, by decide, by decide,
   (C1_verify_roundtrip [("verifyPos", Json.bool true), ("apiKey", Json.str "k")]
     (Json.bool true) "k" "cust-ref-42" samplePost
     [("id", Json.str "inv1"), ("posData", Json.str "\x7b\"posData\": \"cust-ref-42\", \"hash\": \"wotINi500lS5FHe3KOI9Pl3+3VtCr7t9YKW8+5Rfxiw=\"\x7d")]
     (by decide) (by decide) (by decide) (by decide) (by decide) (by decide)).1,
   (C1_verify_roundtrip [("verifyPos", Json.bool true), ("apiKey", Json.str "k")]
     (Json.bool true) "k" "cust-ref-42" samplePost
     [("id", Json.str "inv1"), ("posData", Json.str "\x7b\"posData\": \"cust-ref-42\", \"hash\": \"wotINi500lS5FHe3KOI9Pl3+3VtCr7t9YKW8+5Rfxiw=\"\x7d")]
     (by decide) (by decide) (by decide) (by decide) (by decide) (by decide)).2.1 "WRONG"
     (by decide) (by decide),
   (C1_verify_roundtrip [("verifyPos", Json.bool true), ("apiKey", Json.str "k")]
     (Json.bool true) "k" "cust-ref-42" samplePost
     [("id", Json.str "inv1"), ("posData", Json.str "\x7b\"posData\": \"cust-ref-42\", \"hash\": \"wotINi500lS5FHe3KOI9Pl3+3VtCr7t9YKW8+5Rfxiw=\"\x7d")]
     (by decide) (by decide) (by decide) (by decide) (by decide) (by decide)).2.2 "tampered"
     "\x7b\"id\": \"inv1\", \"posData\": \"\x7b\\\"posData\\\": \\\"tampered\\\", \\\"hash\\\": \\\"wotINi500lS5FHe3KOI9Pl3+3VtCr7t9YKW8+5Rfxiw=\\\"\x7d\"\x7d"
     [("id", Json.str "inv1"), ("posData", Json.str "\x7b\"posData\": \"tampered\", \"hash\": \"wotINi500lS5FHe3KOI9Pl3+3VtCr7t9YKW8+5Rfxiw=\"\x7d")]
     (by decide) (by decide) (by decide) (by decide)⟩

/-- **C1, refutation of the unrestricted claim.**  The merchant value
`café` is not ASCII.  The notification payload below carries exactly the
envelope of the original claim — its outer `posData` field equals
`Json.dumps` of `{posData: "café", hash: bpHash "café" "k"}` (conjuncts 1-3)
— yet verifying it under the same key `k` raises `UnicodeEncodeError`
instead of returning the unwrapped payload: `json.loads` yields `posData`
as a unicode string, and line 197's `str(sanitize_dict(...))` encodes it
with the default ascii codec before any hash comparison. -/
theorem C1_counterexample :
    bpHash "café" "k" = "q2VRcGPmDbROD/a7SqlexvMUPzDEZ4UyFOuvWyi8ND0=" ∧
    Json.dumps (Json.obj [("posData", Json.str "café"),
        ("hash", Json.str "q2VRcGPmDbROD/a7SqlexvMUPzDEZ4UyFOuvWyi8ND0=")]) =
      "\x7b\"posData\": \"caf\\u00e9\", \"hash\": \"q2VRcGPmDbROD/a7SqlexvMUPzDEZ4UyFOuvWyi8ND0=\"\x7d" ∧
    pyJsonLoads "\x7b\"id\": \"inv1\", \"posData\": \"\x7b\\\"posData\\\": \\\"caf\\\\u00e9\\\", \\\"hash\\\": \\\"q2VRcGPmDbROD/a7SqlexvMUPzDEZ4UyFOuvWyi8ND0=\\\"\x7d\"\x7d" =
      .ok (Json.obj [("id", Json.str "inv1"),
        ("posData", Json.str "\x7b\"posData\": \"caf\\u00e9\", \"hash\": \"q2VRcGPmDbROD/a7SqlexvMUPzDEZ4UyFOuvWyi8ND0=\"\x7d")]) ∧
    bpVerifyNotification [("verifyPos", Json.bool true), ("apiKey", Json.str "k")]
        (Json.str "k")
        "\x7b\"id\": \"inv1\", \"posData\": \"\x7b\\\"posData\\\": \\\"caf\\\\u00e9\\\", \\\"hash\\\": \\\"q2VRcGPmDbROD/a7SqlexvMUPzDEZ4UyFOuvWyi8ND0=\\\"\x7d\"\x7d" =
      .error (PyErr.unicodeEncodeError "ascii codec cannot encode character") :=
  ⟨by decide, by decide, by decide, by decide⟩

/-! ## Heap-level model for the configuration-immutability claim

Python dicts are heap objects; to state that the library never writes into
the shared `bp_options.bpOptions` mapping we model the dict heap explicitly:
a store of dicts addressed by index, with the global configuration at
index 0.  `dict(...)` construction and `json.loads` results allocate fresh
slots; `d[k] = v` writes in place through the reference.  The three
operations that assign into any dict — `bpCreateInvoice`,
`bpVerifyNotification`, `bpGetInvoice` — are translated in store-passing
style; the remaining operations (`bpCurl`, `bpHash`, `sanitize_dict`,
`bpDecodeResponse`, `bpLog`) contain no dict assignment at all and are
embedded as pure functions of the configuration value. -/

/-- The dict heap: one dict per slot, the global configuration at slot 0. -/
abbrev Store := List (List (String × Json))

/-- Dereference a dict. -/
def storeRead (st : Store) (r : Nat) : List (String × Json) := st.getD r []

/-- Write through a dict reference (`d[k] = v` on the dict at `r`). -/
def storeWrite (st : Store) (r : Nat) (d : List (String × Json)) : Store := st.set r d

/-- Allocate a fresh dict, returning its reference. -/
def storeAlloc (st : Store) (d : List (String × Json)) : Nat × Store := (st.length, st ++ [d])

theorem storeRead_zero_write (st : Store) (r : Nat) (d : List (String × Json)) (h : 1 ≤ r) :
    storeRead (storeWrite st r d) 0 = storeRead st 0 := by
  cases st with
  | nil => simp [storeWrite, storeRead]
  | cons a t =>
      cases r with
      | zero => omega
      | succ n => simp [storeWrite, storeRead, List.set]

theorem storeRead_zero_alloc (st : Store) (d : List (String × Json)) (h : 1 ≤ st.length) :
    storeRead (st ++ [d]) 0 = storeRead st 0 := by
  cases st with
  | nil => simp at h
  | cons a t => simp [storeRead]

/-- Lines 159-161 in store-passing style: copy the allow-listed fields from
the merged options dict into the request/envelope dict. -/
def copyPostOptionsStore (optRef posRef : Nat) : Store → List String → Store
  | st, [] => st
  | st, o :: rest =>
    copyPostOptionsStore optRef posRef
      (match dictGet (storeRead st optRef) o with
       | some v => storeWrite st posRef (dictSet (storeRead st posRef) o v)
       | none => st) rest

theorem storeRead_zero_copy (optRef posRef : Nat) (hpos : 1 ≤ posRef) (keys : List String) :
    ∀ st : Store, storeRead (copyPostOptionsStore optRef posRef st keys) 0 =
      storeRead st 0 := by
  induction keys with
  | nil => intro st; rfl
  | cons o rest ih =>
      intro st
      rw [copyPostOptionsStore]
      cases hd : dictGet (storeRead st optRef) o with
      | none => simp only [hd]; rw [ih]
      | some v => simp only [hd]; rw [ih, storeRead_zero_write _ _ _ hpos]

/-- Lines 142-143 in store-passing style: when the global `verifyPos` option
is truthy, write the keyed hash into the envelope dict through its
reference. -/
def bpEnvelopeHashStore (st : Store) (optRef posRef : Nat) (pos_data : String) (vp : Json) :
    Except PyErr Store :=
  if pyTruthy vp then
    match dictGet (storeRead st optRef) "apiKey" with
    | some (Json.str ak) =>
      .ok (storeWrite st posRef (dictSet (storeRead st posRef) "hash"
        (Json.str (bpHash (pyStr (sanitize_dict (Json.str pos_data))) ak))))
    | some _ => .error (.typeError "expected a string api key")
    | none => .error (.keyError "apiKey")
  else .ok st

theorem bpEnvelopeHashStore_read0 (st : Store) (optRef posRef : Nat) (pd : String)
    (vp : Json) (st3 : Store) (hpos : 1 ≤ posRef)
    (h : bpEnvelopeHashStore st optRef posRef pd vp = .ok st3) :
    storeRead st3 0 = storeRead st 0 := by
  rw [bpEnvelopeHashStore] at h
  split at h
  · split at h <;>
      first
      | (simp only [Except.ok.injEq] at h
         subst h
         rw [storeRead_zero_write _ _ _ hpos])
      | exact absurd h (by simp)
  · simp only [Except.ok.injEq] at h
    subst h
    rfl

/-- Line 163-165 in store-passing style: serialize the request body and
issue the `bpCurl` call with `options['apiKey']`; the store is unchanged. -/
def bpCreateFinishStore (st7 : Store) (optRef posRef : Nat) : CreateInvoiceResult × Store :=
  let bodyStr := Json.dumps (Json.obj (storeRead st7 posRef))
  match dictGet (storeRead st7 optRef) "apiKey" with
  | some ak =>
    (.request "https://bitpay.com/api/invoice/" (storeRead st7 posRef) bodyStr ak, st7)
  | none => (.raised (.keyError "apiKey"), st7)

theorem bpCreateFinishStore_snd (st7 : Store) (optRef posRef : Nat) :
    (bpCreateFinishStore st7 optRef posRef).2 = st7 := by
  rw [bpCreateFinishStore]
  split <;> rfl

/-- `bpCreateInvoice` in store-passing style: the merged options dict and the
envelope dict are freshly allocated; every subsequent item assignment goes
through their references; the global configuration at slot 0 is only read. -/
def bpCreateInvoiceStore (st : Store) (order_id price pos_data : String)
    (optionsArg : Option (List (String × Json))) : CreateInvoiceResult × Store :=
  let cfg := storeRead st 0
  let options0 :=
    match optionsArg with
    | none => []
    | some o => o
  let optRef := st.length
  let st1 := (storeAlloc st (dictFromList (cfg ++ options0))).2
  let posRef := st1.length
  let st2 := (storeAlloc st1 [("posData", Json.str pos_data)]).2
  match dictGet (storeRead st2 0) "verifyPos" with
  | none => (.raised (.keyError "verifyPos"), st2)
  | some vp =>
    match bpEnvelopeHashStore st2 optRef posRef pos_data vp with
    | .error e => (.raised e, st2)
    | .ok st3 =>
      let envStr := Json.dumps (Json.obj (storeRead st3 posRef))
      let st4 := storeWrite st3 optRef (dictSet (storeRead st3 optRef) "posData"
        (Json.str envStr))
      if 100 < envStr.length then
        (.errorDict (Json.obj [("error",
          Json.str "posData > 100 character limit. Are you using the posData hash?")]), st4)
      else
        let st5 := storeWrite st4 optRef (dictSet (storeRead st4 optRef) "orderID"
          (Json.str order_id))
        let st6 := storeWrite st5 optRef (dictSet (storeRead st5 optRef) "price"
          (Json.str price))
        bpCreateFinishStore (copyPostOptionsStore optRef posRef st6 postOptionsList)
          optRef posRef

theorem bpCreateInvoiceStore_preserves (st : Store) (h : 1 ≤ st.length)
    (oid price pd : String) (optionsArg : Option (List (String × Json))) :
    storeRead (bpCreateInvoiceStore st oid price pd optionsArg).2 0 = storeRead st 0 := by
  have hA : ∀ d : List (String × Json), storeRead (st ++ [d]) 0 = storeRead st 0 :=
    fun d => storeRead_zero_alloc st d h
  have hlen2 : ∀ d : List (String × Json), 1 ≤ (st ++ [d]).length := by
    intro d
    simp only [List.length_append, List.length_cons, List.length_nil]
    omega
  have hB : ∀ d d2 : List (String × Json), storeRead (st ++ [d] ++ [d2]) 0 =
      storeRead st 0 := by
    intro d d2
    rw [storeRead_zero_alloc _ _ (hlen2 d), hA]
  rw [bpCreateInvoiceStore.eq_def]
  simp only [storeAlloc]
  split
  · exact hB _ _
  · split
    · exact hB _ _
    · rename_i st3 heq
      have hread3 : storeRead st3 0 = storeRead st 0 := by
        rw [bpEnvelopeHashStore_read0 _ _ _ _ _ _ (hlen2 _) heq]
        exact hB _ _
      split
      · rw [storeRead_zero_write _ _ _ h, hread3]
      · rw [bpCreateFinishStore_snd, storeRead_zero_copy _ _ (hlen2 _),
          storeRead_zero_write _ _ _ h, storeRead_zero_write _ _ _ h,
          storeRead_zero_write _ _ _ h, hread3]

/-- `bpVerifyNotification` in store-passing style: the parsed payload dict is
freshly allocated; the single item assignment (line 200) writes through its
reference; the global configuration at slot 0 is only read. -/
def bpVerifyNotificationStore (st : Store) (api_key : Json) (post : String) :
    Except PyErr Json × Store :=
  let bpOptions := storeRead st 0
  let keyR : Except PyErr Json :=
    if pyTruthy api_key then .ok api_key
    else
      match dictGet bpOptions "apiKey" with
      | some v => .ok v
      | none => .error (.keyError "apiKey")
  match keyR with
  | .error e => (.error e, st)
  | .ok key =>
    if post = "" then (.ok (Json.str "No post data"), st)
    else
      match pyJsonLoads post with
      | .error e => (.error e, st)
      | .ok (Json.obj flds) =>
        let jdRef := st.length
        let st1 := (storeAlloc st flds).2
        (match pyContains (Json.obj flds) "posData" with
         | .error e => (.error e, st1)
         | .ok c =>
           if !c then (.ok (Json.str "no posData"), st1)
           else
             match pyGetItem (Json.obj flds) "posData" with
             | .error e => (.error e, st1)
             | .ok (Json.str s) =>
               (match pyJsonLoads s with
               | .error e => (.error e, st1)
               | .ok pos_data =>
                 match dictGet bpOptions "verifyPos" with
                 | none => (.error (.keyError "verifyPos"), st1)
                 | some vp =>
                   let finish : Except PyErr Json × Store :=
                     match pyGetItem pos_data "posData" with
                     | .error e => (.error e, st1)
                     | .ok inner =>
                       let st2 := storeWrite st1 jdRef
                         (dictSet (storeRead st1 jdRef) "posData" inner)
                       (.ok (Json.obj (storeRead st2 jdRef)), st2)
                   if pyTruthy vp then
                     match pyGetItem pos_data "hash" with
                     | .error e => (.error e, st1)
                     | .ok hsh =>
                       match pyGetItem pos_data "posData" with
                       | .error e => (.error e, st1)
                       | .ok inner =>
                         match sanitize_dict_u inner with
                         | .error e => (.error e, st1)
                         | .ok sv =>
                           match key with
                           | Json.str ks =>
                             if hsh ≠ Json.str (bpHash (pyStr sv) ks) then
                               (.ok (Json.str "authentication failed (bad hash)"), st1)
                             else finish
                           | _ => (.error (.typeError "expected a string api key"), st1)
                   else finish)
             | .ok _ => (.error (.typeError "expected string or buffer"), st1))
      | .ok jd =>
        -- a non-dict payload allocates nothing and performs no item assignment;
        -- `jd[...]` can only raise
        (match pyContains jd "posData" with
         | .error e => (.error e, st)
         | .ok c =>
           if !c then (.ok (Json.str "no posData"), st)
           else
             match pyGetItem jd "posData" with
             | .error e => (.error e, st)
             | .ok _ => (.error (.typeError "expected string or buffer"), st))

theorem bpVerifyNotificationStore_preserves (st : Store) (h : 1 ≤ st.length)
    (api_key : Json) (post : String) :
    storeRead (bpVerifyNotificationStore st api_key post).2 0 = storeRead st 0 := by
  rw [bpVerifyNotificationStore.eq_def]
  simp only [storeAlloc]
  repeat' split
  all_goals
    first
    | rfl
    | exact storeRead_zero_alloc st _ h
    | (rw [storeRead_zero_write _ _ _ h]
       exact storeRead_zero_alloc st _ h)

/-- `bpGetInvoice`'s post-network tail in store-passing style: the response
dict obtained from `bpCurl` is freshly allocated; the two item assignments
(lines 230-231) write through its reference; the global configuration is not
touched. -/
def bpGetInvoiceStore (st : Store) (response : Json) : Except PyErr Json × Store :=
  match response with
  | Json.obj flds =>
    let rRef := st.length
    let st1 := (storeAlloc st flds).2
    (match pyGetItem (Json.obj flds) "posData" with
     | .error e => (.error e, st1)
     | .ok (Json.str s) =>
       (match pyJsonLoads s with
       | .error e => (.error e, st1)
       | .ok env =>
         let st2 := storeWrite st1 rRef (dictSet (storeRead st1 rRef) "posData" env)
         match pyGetItem (Json.obj (storeRead st2 rRef)) "posData" with
         | .error e => (.error e, st2)
         | .ok envRead =>
           match pyGetItem envRead "posData" with
           | .error e => (.error e, st2)
           | .ok inner =>
             let st3 := storeWrite st2 rRef (dictSet (storeRead st2 rRef) "posData" inner)
             (.ok (Json.obj (storeRead st3 rRef)), st3))
     | .ok _ => (.error (.typeError "expected string or buffer"), st1))
  | other =>
    -- a non-dict response allocates nothing; `other['posData']` can only raise
    (match pyGetItem other "posData" with
     | .error e => (.error e, st)
     | .ok _ => (.error (.typeError "expected string or buffer"), st))

theorem bpGetInvoiceStore_preserves (st : Store) (h : 1 ≤ st.length) (response : Json) :
    storeRead (bpGetInvoiceStore st response).2 0 = storeRead st 0 := by
  rw [bpGetInvoiceStore.eq_def]
  simp only [storeAlloc]
  repeat' split
  all_goals
    first
    | rfl
    | exact storeRead_zero_alloc st _ h
    | (rw [storeRead_zero_write _ _ _ h]
       exact storeRead_zero_alloc st _ h)
    | (rw [storeRead_zero_write _ _ _ h, storeRead_zero_write _ _ _ h]
       exact storeRead_zero_alloc st _ h)

/-- **C8.** Every library operation leaves the process-wide configuration
mapping `bp_options.bpOptions` unchanged.  The three operations that assign
into any dict — `bpCreateInvoice`, `bpVerifyNotification`, `bpGetInvoice` —
are modelled in store-passing style with the configuration at heap slot 0:
each preserves slot 0, because the merge builds a fresh dictionary and every
write goes through a freshly allocated reference.  The remaining operations
(`bpCurl`, `bpHash`, `sanitize_dict`, `bpDecodeResponse`, `bpLog`) contain
no dict assignment at all and are embedded as pure functions of the
configuration value. -/
theorem C8_config_unchanged (st : Store) (h : 1 ≤ st.length) (oid price pd : String)
    (optionsArg : Option (List (String × Json))) (api_key response : Json) (post : String) :
    storeRead (bpCreateInvoiceStore st oid price pd optionsArg).2 0 = storeRead st 0 ∧
    storeRead (bpVerifyNotificationStore st api_key post).2 0 = storeRead st 0 ∧
    storeRead (bpGetInvoiceStore st response).2 0 = storeRead st 0 :=
  ⟨bpCreateInvoiceStore_preserves st h oid price pd optionsArg,
   bpVerifyNotificationStore_preserves st h api_key post,
   bpGetInvoiceStore_preserves st h response⟩

theorem C8_config_unchanged_witness :
    1 ≤ ([[("apiKey", Json.str "k"), ("verifyPos", Json.bool false)]] : Store).length ∧
    (storeRead (bpCreateInvoiceStore
        [[("apiKey", Json.str "k"), ("verifyPos", Json.bool false)]] "o" "1" "x" none).2 0 =
      storeRead [[("apiKey", Json.str "k"), ("verifyPos", Json.bool false)]] 0 ∧
    storeRead (bpVerifyNotificationStore
        [[("apiKey", Json.str "k"), ("verifyPos", Json.bool false)]] (Json.str "k") "").2 0 =
      storeRead [[("apiKey", Json.str "k"), ("verifyPos", Json.bool false)]] 0 ∧
    storeRead (bpGetInvoiceStore
        [[("apiKey", Json.str "k"), ("verifyPos", Json.bool false)]] Json.null).2 0 =
      storeRead [[("apiKey", Json.str "k"), ("verifyPos", Json.bool false)]] 0) :=
  ⟨by decide,
   C8_config_unchanged [[("apiKey", Json.str "k"), ("verifyPos", Json.bool false)]]
     (by decide) "o" "1" "x" none (Json.str "k") Json.null ""⟩

end BpLib
